import Mathlib

/-!
Verification of the StoryFi subnet scoring and reputation pipeline.

This development embeds the scoring pipeline of the repository
(`scoring/technical.py`, `scoring/structure.py`, `scoring/content.py`,
`scoring/narrative.py`, `neurons/validator.py`, `template/utils.py`)
as executable Lean definitions over a small JSON value model, and proves
the testable properties of the specification against them.

Conventions of the embedding:
* Python floats are modelled by `ℚ` (all scoring arithmetic is exact
  rational arithmetic on the constants appearing in the code).
* Python dicts / parsed JSON values are modelled by the `Json` inductive
  below; dict iteration order is the entry-list order.
* Points where the dynamically-typed Python would raise a `TypeError`
  (for example `len(data.get("setting", ""))` when the field holds a
  number) are totalised with the same default the code supplies for the
  missing-field case; no theorem below exercises such a point.
* SHA-256 content hashes are modelled by the hashed string itself
  (hash equality becomes string equality; collisions are ignored).
* External I/O (the narrative AI judge call and the parsing of its
  reply) is modelled by an `Option Json` parameter holding the parsed
  reply, `none` meaning backend failure or an unparseable reply.
-/

set_option linter.unusedVariables false

namespace StoryFi

/-- Model of a parsed JSON value / Python dict as handled by the scoring
pipeline (`output_data`, contexts, policies all have this shape). -/
inductive Json where
  | str : String → Json
  | num : ℚ → Json
  | boolean : Bool → Json
  | null : Json
  | arr : List Json → Json
  | obj : List (String × Json) → Json

/-- First binding of `key` in an entry list (Python dict lookup). -/
def lookupField : List (String × Json) → String → Option Json
  | [], _ => none
  | (k, v) :: rest, key => if k = key then some v else lookupField rest key

/-- `data.get(key)` on a dict; `none` both for a missing key and for a
non-dict receiver. -/
def Json.get (j : Json) (key : String) : Option Json :=
  match j with
  | .obj kvs => lookupField kvs key
  | _ => none

/-- Python `key in data` for a dict. -/
def Json.hasField (j : Json) (key : String) : Bool :=
  (j.get key).isSome

/-- `isinstance(v, str)`. -/
def Json.isStr : Json → Bool
  | .str _ => true
  | _ => false

/-- `isinstance(v, list)`. -/
def Json.isList : Json → Bool
  | .arr _ => true
  | _ => false

/-- `isinstance(v, dict)`. -/
def Json.isDict : Json → Bool
  | .obj _ => true
  | _ => false

/-- `isinstance(v, (int, float))`. -/
def Json.isNum : Json → Bool
  | .num _ => true
  | _ => false

/-- Python truthiness of a JSON value (`if not data: ...`). -/
def Json.truthy : Json → Bool
  | .str s => !s.isEmpty
  | .num q => decide (q ≠ 0)
  | .boolean b => b
  | .null => false
  | .arr xs => !xs.isEmpty
  | .obj kvs => !kvs.isEmpty

/-- `data.get(key, "")` where the code immediately uses the value as a
string; a non-string value (which would raise in Python) is totalised to
the default. -/
def Json.getStrD (j : Json) (key : String) : String :=
  match j.get key with
  | some (.str s) => s
  | _ => ""

/-! ### `scoring/technical.py` -/

/-- Expected-type tags used by the `checks` tables of
`validate_field_types`. -/
inductive PyType where
  | pstr
  | plist
  | pdict

/-- `isinstance(v, expected_type)` for a `checks` table entry. -/
def Json.isinstance (j : Json) : PyType → Bool
  | .pstr => j.isStr
  | .plist => j.isList
  | .pdict => j.isDict

/-- The `checks` table of the blueprint branch of `validate_field_types`. -/
def blueprintChecks : List (String × PyType) :=
  [("title", .pstr), ("genre", .pstr), ("setting", .pstr),
   ("core_conflict", .pstr), ("themes", .plist), ("tone", .pstr),
   ("target_audience", .pstr)]

/-- The `checks` table of the story_arc branch of `validate_field_types`. -/
def storyArcChecks : List (String × PyType) :=
  [("title", .pstr), ("description", .pstr), ("chapters", .plist),
   ("arcs", .pdict), ("themes", .pdict), ("hooks", .pdict)]

/-- The per-field loop of `validate_field_types` for the blueprint branch:
accumulates `(correct_types, total_checks)`; present fields count one
check, a correct `isinstance` adds 1, and a `themes` list of length 2–5
adds the 0.5 bonus. -/
def blueprintTypeLoop (data : Json) : List (String × PyType) → ℚ × ℚ
  | [] => (0, 0)
  | (field, ty) :: rest =>
    let (c, t) := blueprintTypeLoop data rest
    match data.get field with
    | none => (c, t)
    | some v =>
      let c := if v.isinstance ty then c + 1 else c
      let c :=
        if field = "themes" then
          match v with
          | .arr ts => if 2 ≤ ts.length ∧ ts.length ≤ 5 then c + 1/2 else c
          | _ => c
        else c
      (c, t + 1)

/-- The per-field loop of `validate_field_types` for the story_arc branch
(no special case inside the loop). -/
def storyArcTypeLoop (data : Json) : List (String × PyType) → ℚ × ℚ
  | [] => (0, 0)
  | (field, ty) :: rest =>
    let (c, t) := storyArcTypeLoop data rest
    match data.get field with
    | none => (c, t)
    | some v => (if v.isinstance ty then c + 1 else c, t + 1)

/-- The chapters branch of `validate_field_types`: every element of the
`chapters` list must be a dict carrying `id`, `title` and `content`. -/
def chaptersAllValid : List Json → Bool
  | [] => true
  | c :: rest =>
    match c with
    | .obj _ =>
      (c.hasField "id" && c.hasField "title" && c.hasField "content")
        && chaptersAllValid rest
    | _ => false

/-- `validate_field_types(data, task_type)` of `scoring/technical.py`:
the type-correctness ratio `correct_types / total_checks` (0 when no
check applies). -/
def validate_field_types (data : Json) (task_type : String) : ℚ :=
  if task_type = "blueprint" then
    let (c, t) := blueprintTypeLoop data blueprintChecks
    if t > 0 then c / t else 0
  else if task_type = "characters" then
    match data.get "characters" with
    | some (.arr cs) =>
      let c : ℚ := if cs.length = 5 then 1 else min ((cs.length : ℚ) / 5) 1
      c / 1
    | _ => 0
  else if task_type = "story_arc" then
    let (c, t) := storyArcTypeLoop data storyArcChecks
    let c :=
      match data.get "chapters" with
      | some (.arr cs) => if cs.length = 12 then c + 1 else c
      | _ => c
    if t > 0 then c / t else 0
  else if task_type = "chapters" then
    match data.get "chapters" with
    | some (.arr cs) => if chaptersAllValid cs then 1 else 0
    | _ => 0
  else 0

/-- `calculate_schema_score(data, required_fields, task_type)` of
`scoring/technical.py` (the 10-point schema-completeness component). -/
def calculate_schema_score (data : Json) (required_fields : List String)
    (task_type : String) : ℚ :=
  if required_fields = [] then 10
  else
    let missing := required_fields.filter (fun f => ¬ data.hasField f)
    if missing = [] then 10 * validate_field_types data task_type
    else
      let matched : ℚ := (required_fields.length : ℚ) - (missing.length : ℚ)
      10 * (matched / (required_fields.length : ℚ))

/-- `calculate_time_score(generation_time)` of `scoring/technical.py`. -/
def calculate_time_score (generation_time : ℚ) : ℚ :=
  if generation_time ≤ 30 then 10
  else if generation_time ≤ 60 then max 0 (10 - (generation_time - 30) * (33/100))
  else 0

/-- `calculate_technical_score` of `scoring/technical.py`. The JSON
parse of the response string is modelled by the `Option Json` argument
(`none` = `json.JSONDecodeError`, which zeroes the whole score). -/
def calculate_technical_score (parsed : Option Json) (generation_time : ℚ)
    (task_type : String) (required_fields : List String) : ℚ :=
  match parsed with
  | none => 0
  | some data =>
    let json_valid : ℚ := 10
    let schema := calculate_schema_score data required_fields task_type
    let time_score := calculate_time_score generation_time
    min (json_valid + schema + time_score) 30

/-- `get_required_output_fields` of `template/protocol.py`. -/
def get_required_output_fields (task_type : String) : List String :=
  if task_type = "blueprint" then
    ["title", "genre", "setting", "core_conflict", "themes", "tone",
     "target_audience"]
  else if task_type = "characters" then ["characters"]
  else if task_type = "story_arc" then
    ["title", "description", "chapters", "arcs", "themes", "hooks"]
  else if task_type = "chapters" then ["chapters"]
  else []

/-! ### `scoring/structure.py` -/

/-- Average of a list of partial scores, 0 when no score was collected
(the pattern `if scores: breakdown[k] = pts * (sum(scores)/len(scores))`). -/
def listAvg (l : List ℚ) : ℚ :=
  if l = [] then 0 else l.sum / (l.length : ℚ)

/-- `score_blueprint_structure` of `scoring/structure.py` (40-point
budget: field completeness 20, content length 10, themes count 10). -/
def score_blueprint_structure (data : Json) : ℚ :=
  let required_fields := ["title", "genre", "setting", "core_conflict",
    "themes", "tone", "target_audience"]
  let present_fields := (required_fields.filter (fun f => data.hasField f)).length
  let field_completeness : ℚ :=
    20 * ((present_fields : ℚ) / (required_fields.length : ℚ))
  let setting_len := (data.getStrD "setting").length
  let conflict_len := (data.getStrD "core_conflict").length
  let length_score : ℚ :=
    (if 50 ≤ setting_len ∧ setting_len ≤ 300 then 5
     else if 30 ≤ setting_len ∧ setting_len ≤ 500 then 3 else 0)
    + (if 30 ≤ conflict_len ∧ conflict_len ≤ 200 then 5
       else if 15 ≤ conflict_len ∧ conflict_len ≤ 300 then 3 else 0)
  let themes_count : ℚ :=
    match data.get "themes" with
    | some (.arr ts) =>
      if 2 ≤ ts.length ∧ ts.length ≤ 5 then 10
      else if 1 ≤ ts.length ∧ ts.length ≤ 6 then 5 else 0
    | some _ => 0
    | none =>
      -- `data.get("themes", [])` defaults to the empty list, whose length
      -- falls in neither bracket.
      0
  field_completeness + length_score + themes_count

/-- Required per-character fields of `score_characters_structure`. -/
def charRequiredFields : List String :=
  ["id", "name", "archetype", "background", "motivation", "skills",
   "personality_traits"]

/-- Per-character completeness entry (non-dict cast members are skipped). -/
def charCompleteness (c : Json) : Option ℚ :=
  match c with
  | .obj _ =>
    some (((charRequiredFields.filter (fun f => c.hasField f)).length : ℚ)
      / (charRequiredFields.length : ℚ))
  | _ => none

/-- Per-character relationship entry: 1.0 for ≥ 2 recorded relationships,
0.5 for exactly 1; characters with none (or a non-dict `relationships`
value) contribute no entry at all. -/
def charRelationshipScore (c : Json) : Option ℚ :=
  match c with
  | .obj _ =>
    match (match c.get "relationships" with
           | some r => r
           | none => Json.obj []) with
    | .obj rels =>
      if 2 ≤ rels.length then some 1
      else if 1 ≤ rels.length then some (1/2)
      else none
    | _ => none
  | _ => none

/-- `score_characters_structure` of `scoring/structure.py` (cast size 20,
per-character completeness 10, relationship network 10). -/
def score_characters_structure (data : Json) : ℚ :=
  let charsOpt : Option (List Json) :=
    match data.get "characters" with
    | some (.arr cs) => some cs
    | none => some []        -- `data.get("characters", [])`
    | some _ => none         -- non-list ⇒ score 0 immediately
  match charsOpt with
  | none => 0
  | some characters =>
    let character_count : ℚ :=
      if characters.length = 5 then 20
      else if 3 ≤ characters.length then 20 * ((characters.length : ℚ) / 5)
      else 0
    let character_completeness : ℚ :=
      10 * listAvg (characters.filterMap charCompleteness)
    let relationships : ℚ :=
      10 * listAvg (characters.filterMap charRelationshipScore)
    character_count + character_completeness + relationships

/-- `storyProgress` of one chapter as seen by the monotonicity loops:
`none` when the loop body skips the entry without touching `prev`
(non-dict chapter, or a non-numeric value), `some q` for the numeric
progress (a missing field defaults to the numeric `0`). -/
def chapterProgress (c : Json) : Option ℚ :=
  match c with
  | .obj _ =>
    match c.get "storyProgress" with
    | some (.num q) => some q
    | some _ => none
    | none => some 0
  | _ => none

/-- Loop of `is_progress_monotonic`: a non-numeric `storyProgress` on a
dict chapter fails the check outright, a non-dict chapter is skipped. -/
def monoLoop (prev : ℚ) : List Json → Bool
  | [] => true
  | c :: rest =>
    match c with
    | .obj kvs =>
      match lookupField kvs "storyProgress" with
      | some (.num q) => if q ≤ prev then false else monoLoop q rest
      | some _ => false
      | none => if (0:ℚ) ≤ prev then false else monoLoop 0 rest
    | _ => monoLoop prev rest

/-- `is_progress_monotonic(chapters)` of `scoring/structure.py`. -/
def is_progress_monotonic (chapters : List Json) : Bool :=
  monoLoop (-1) chapters

/-- Loop of `count_progress_violations`: numeric progress values are
compared against (and then replace) `prev`; everything else is skipped. -/
def violationLoop (prev : ℚ) (acc : ℕ) : List Json → ℕ
  | [] => acc
  | c :: rest =>
    match chapterProgress c with
    | some q => violationLoop q (if q ≤ prev then acc + 1 else acc) rest
    | none => violationLoop prev acc rest

/-- `count_progress_violations(chapters)` of `scoring/structure.py`. -/
def count_progress_violations (chapters : List Json) : ℕ :=
  violationLoop (-1) 0 chapters

/-- One act of `validate_act_structure`: present, a dict, and with a
`chapters` list of length exactly 3. -/
def actValid (arcs : Json) (act : String) : Bool :=
  match arcs.get act with
  | some (.obj actData) =>
    match lookupField actData "chapters" with
    | some (.arr cs) => cs.length = 3
    | some _ => false
    | none => false          -- default `[]` has length 0 ≠ 3
  | some _ => false
  | none => false

/-- The four acts required by `validate_act_structure`. -/
def requiredActs : List String := ["act1", "act2a", "act2b", "act3"]

/-- `validate_act_structure(arcs)` of `scoring/structure.py`. -/
def validate_act_structure (arcs : Json) : Bool :=
  arcs.isDict && requiredActs.all (actValid arcs)

/-- `score_partial_act_structure(arcs)`: fraction of the four acts that
are present at all. -/
def score_partial_act_structure (arcs : Json) : ℚ :=
  match arcs with
  | .obj _ =>
    ((requiredActs.filter (fun a => arcs.hasField a)).length : ℚ)
      / (requiredActs.length : ℚ)
  | _ => 0

/-- Breakdown dictionary of `score_story_arc_structure`. -/
structure ArcBreakdown where
  chapter_count : ℚ
  progress_monotonic : ℚ
  act_structure : ℚ

/-- `score_story_arc_structure` of `scoring/structure.py` (chapter count
20, monotone progress 10, four-act structure 10), returning the total
and the breakdown. -/
def score_story_arc_structure (data : Json) : ℚ × ArcBreakdown :=
  let chaptersOpt : Option (List Json) :=
    match data.get "chapters" with
    | some (.arr cs) => some cs
    | none => some []        -- `data.get("chapters", [])`
    | some _ => none         -- non-list ⇒ score 0 immediately
  match chaptersOpt with
  | none => (0, ⟨0, 0, 0⟩)
  | some chapters =>
    let chapter_count : ℚ :=
      if chapters.length = 12 then 20
      else if 8 ≤ chapters.length then 20 * ((chapters.length : ℚ) / 12)
      else 0
    let progress_monotonic : ℚ :=
      if is_progress_monotonic chapters then 10
      else
        let violations := count_progress_violations chapters
        if violations ≤ 2 then
          10 * (1 - (violations : ℚ) / (chapters.length : ℚ))
        else 0
    let arcs := match data.get "arcs" with
      | some a => a
      | none => Json.obj []  -- `data.get("arcs", {})`
    let act_structure : ℚ :=
      if validate_act_structure arcs then 10
      else 10 * score_partial_act_structure arcs
    (chapter_count + progress_monotonic + act_structure,
     ⟨chapter_count, progress_monotonic, act_structure⟩)

/-- Per-chapter content-length entry of `score_chapters_structure`;
out-of-range lengths contribute no entry. -/
def chapterLengthScore (c : Json) : Option ℚ :=
  match c with
  | .obj _ =>
    let length := (c.getStrD "content").length
    if 1000 ≤ length ∧ length ≤ 3000 then some 1
    else if 800 ≤ length ∧ length < 1000 then some (7/10)
    else if 3000 < length ∧ length ≤ 3500 then some (8/10)
    else if 500 ≤ length ∧ length < 800 then some (4/10)
    else none
  | _ => none

/-- Per-chapter choice-count entry of `score_chapters_structure`;
chapters with zero choices (or a non-list value) contribute no entry. -/
def chapterChoiceScore (c : Json) : Option ℚ :=
  match c with
  | .obj _ =>
    match (match c.get "choices" with
           | some v => v
           | none => Json.arr []) with
    | .arr choices =>
      if 2 ≤ choices.length ∧ choices.length ≤ 4 then some 1
      else if choices.length = 1 then some (3/10)
      else if 4 < choices.length then some (6/10)
      else none
    | _ => none
  | _ => none

/-- Canonical (`sort_keys=True`) serialization of a choice's
`consequences` dict, as collected by `calculate_branch_diversity`;
defined below once the serializer is available. -/
def consequencesKey (dump : Json → String) (choice : Json) : Option String :=
  match choice with
  | .obj _ =>
    match (match choice.get "consequences" with
           | some v => v
           | none => Json.obj []) with
    | .obj kvs => some (dump (Json.obj kvs))
    | _ => none
  | _ => none

/-- Per-chapter branch-diversity entry of `calculate_branch_diversity`:
fraction of distinct consequence signatures among the chapter's choices. -/
def chapterDiversity (dump : Json → String) (c : Json) : Option ℚ :=
  match c with
  | .obj _ =>
    match (match c.get "choices" with
           | some v => v
           | none => Json.arr []) with
    | .arr choices =>
      if choices.length < 2 then none
      else
        let consequences := choices.filterMap (consequencesKey dump)
        if consequences = [] then none
        else some ((consequences.dedup.length : ℚ) / (consequences.length : ℚ))
    | _ => none
  | _ => none

/-- `calculate_branch_diversity(chapters)` of `scoring/structure.py`,
parameterised by the canonical serializer. -/
def calculate_branch_diversity (dump : Json → String)
    (chapters : List Json) : ℚ :=
  listAvg (chapters.filterMap (chapterDiversity dump))

/-- `score_chapters_structure` of `scoring/structure.py` (content length
20, choice quality 10, branch diversity 10). -/
def score_chapters_structure (dump : Json → String) (data : Json) : ℚ :=
  let chaptersOpt : Option (List Json) :=
    match data.get "chapters" with
    | some (.arr cs) => some cs
    | none => some []
    | some _ => none
  match chaptersOpt with
  | none => 0
  | some chapters =>
    if chapters.isEmpty then 0   -- `not chapters` ⇒ score 0 immediately
    else
      let content_length : ℚ :=
        20 * listAvg (chapters.filterMap chapterLengthScore)
      let choices_quality : ℚ :=
        10 * listAvg (chapters.filterMap chapterChoiceScore)
      let branch_diversity : ℚ :=
        10 * calculate_branch_diversity dump chapters
      content_length + choices_quality + branch_diversity

/-! ### JSON serialization and bigram-Jaccard similarity

`json.dumps(data, ensure_ascii=False, sort_keys=True)` is modelled by
recursively sorting every object's entries by key and then printing with
the default `", "` / `": "` separators.  Escaping of special characters
inside strings is not modelled; no theorem below depends on the exact
rendering of a string, only on the serializer being a function and on
the bracket structure of objects. -/

/-- Insert one entry into a key-sorted entry list. -/
def insertByKey (p : String × Json) : List (String × Json) → List (String × Json)
  | [] => [p]
  | q :: rest =>
    if compare p.1 q.1 = Ordering.gt then q :: insertByKey p rest
    else p :: q :: rest

/-- Sort an entry list by key (insertion sort). -/
def sortByKey : List (String × Json) → List (String × Json)
  | [] => []
  | p :: rest => insertByKey p (sortByKey rest)

mutual

/-- Recursively sort all object entry lists by key (`sort_keys=True`). -/
def Json.sortKeysDeep : Json → Json
  | .arr xs => .arr (sortElems xs)
  | .obj kvs => .obj (sortByKey (sortMembers kvs))
  | j => j

/-- `Json.sortKeysDeep` mapped over array elements. -/
def sortElems : List Json → List Json
  | [] => []
  | x :: rest => x.sortKeysDeep :: sortElems rest

/-- `Json.sortKeysDeep` mapped over object values. -/
def sortMembers : List (String × Json) → List (String × Json)
  | [] => []
  | (k, v) :: rest => (k, v.sortKeysDeep) :: sortMembers rest

end

mutual

/-- Print a JSON value with the separators `json.dumps` uses. -/
def Json.dump : Json → String
  | .str s => "\"" ++ s ++ "\""
  | .num q => toString q
  | .boolean b => if b then "true" else "false"
  | .null => "null"
  | .arr xs => "[" ++ dumpElems xs ++ "]"
  | .obj kvs => "\x7b" ++ dumpMembers kvs ++ "\x7d"

/-- Comma-separated array elements. -/
def dumpElems : List Json → String
  | [] => ""
  | [x] => Json.dump x
  | x :: y :: rest => Json.dump x ++ ", " ++ dumpElems (y :: rest)

/-- Comma-separated `"key": value` members. -/
def dumpMembers : List (String × Json) → String
  | [] => ""
  | [(k, v)] => "\"" ++ k ++ "\": " ++ Json.dump v
  | (k, v) :: m :: rest =>
    "\"" ++ k ++ "\": " ++ Json.dump v ++ ", " ++ dumpMembers (m :: rest)

end

/-- `json.dumps(data, ensure_ascii=False, sort_keys=True)`. -/
def dumpsSorted (j : Json) : String :=
  Json.dump j.sortKeysDeep

/-- `get_bigrams(s)`: the set of adjacent character pairs of `s`. -/
def getBigrams (s : String) : Finset (Char × Char) :=
  (s.data.zip s.data.tail).toFinset

/-- The bigram-Jaccard similarity over two already-serialized strings
(the body shared by `StoryValidator.calculate_similarity` and
`calculate_simple_similarity` of `scoring/content.py`). -/
def jaccardSimilarity (s1 s2 : String) : ℚ :=
  let bigrams1 := getBigrams s1
  let bigrams2 := getBigrams s2
  if bigrams1 = ∅ ∨ bigrams2 = ∅ then 0
  else
    let intersection := (bigrams1 ∩ bigrams2).card
    let union := (bigrams1 ∪ bigrams2).card
    if 0 < union then (intersection : ℚ) / (union : ℚ) else 0

/-- `StoryValidator.calculate_similarity(data1, data2)` of
`neurons/validator.py`: bigram Jaccard over the canonical
(`sort_keys=True`) serializations.  `calculate_simple_similarity` of
`scoring/content.py` is the identical function. -/
def calculate_similarity (data1 data2 : Json) : ℚ :=
  jaccardSimilarity (dumpsSorted data1) (dumpsSorted data2)

/-- `calculate_structure_score(data, task_type)` of
`scoring/structure.py`: dispatch on the task type, capped at 40. -/
def calculate_structure_score (data : Json) (task_type : String) : ℚ :=
  if task_type = "blueprint" then min (score_blueprint_structure data) 40
  else if task_type = "characters" then min (score_characters_structure data) 40
  else if task_type = "story_arc" then min (score_story_arc_structure data).1 40
  else if task_type = "chapters" then min (score_chapters_structure dumpsSorted data) 40
  else 0

/-! ### `scoring/content.py` -/

/-- Python `str.lower()`. -/
def pyLower (s : String) : String := ⟨s.data.map Char.toLower⟩

/-- Whitespace tokenizer: accumulates the current token (reversed) and
emits it at each whitespace run, dropping empty tokens. -/
def splitWsAux : List Char → List Char → List (List Char)
  | [], cur => if cur.isEmpty then [] else [cur.reverse]
  | c :: rest, cur =>
    if c.isWhitespace then
      if cur.isEmpty then splitWsAux rest []
      else cur.reverse :: splitWsAux rest []
    else splitWsAux rest (c :: cur)

/-- Python `str.split()` with no argument: split on whitespace runs,
empty tokens dropped. -/
def pySplit (s : String) : List String :=
  (splitWsAux s.data []).map String.mk

/-- Python `str.strip()` with no argument. -/
def pyStrip (s : String) : String :=
  ⟨((s.data.dropWhile Char.isWhitespace).reverse.dropWhile
      Char.isWhitespace).reverse⟩

/-- `text.replace("。", ".")`: the pattern is a single character, so the
replacement is a character map. -/
def replaceFullStop (s : String) : String :=
  ⟨s.data.map (fun c => if c = '。' then '.' else c)⟩

/-- Python `str.split(".")`: split at every `'.'`, keeping empty pieces. -/
def splitDotAux : List Char → List Char → List (List Char)
  | [], cur => [cur.reverse]
  | c :: rest, cur =>
    if c = '.' then cur.reverse :: splitDotAux rest []
    else splitDotAux rest (c :: cur)

/-- Python `text.split(".")`. -/
def splitDot (s : String) : List String :=
  (splitDotAux s.data []).map String.mk

/-- `len(set(a) & set(b))` for two keyword lists. -/
def keywordOverlap (a b : List String) : ℕ :=
  (a.dedup.filter (fun w => b.contains w)).length

/-- The list stored under `key`, defaulting to `[]` (`data.get(key, [])`
followed by iteration). -/
def Json.listFieldD (j : Json) (key : String) : List Json :=
  match j.get key with
  | some (.arr xs) => xs
  | _ => []

/-- `context.get("blueprint", {})`. -/
def Json.dictFieldD (j : Json) (key : String) : Json :=
  match j.get key with
  | some v => v
  | none => Json.obj []

/-- `calculate_relevance_heuristic` of `scoring/content.py` (the
15-point keyword-overlap relevance component). -/
def calculate_relevance_heuristic (data context : Json)
    (task_type : String) : ℚ :=
  let user_input := pyLower (context.getStrD "user_input")
  if task_type = "blueprint" then
    let title := pyLower (data.getStrD "title")
    let genre := pyLower (data.getStrD "genre")
    let setting := pyLower (data.getStrD "setting")
    let input_keywords := pySplit user_input
    let output_keywords := pySplit title ++ pySplit genre ++ pySplit setting
    let overlap := keywordOverlap input_keywords output_keywords
    if 0 < overlap then min 15 ((overlap : ℚ) * 3) else 0
  else if task_type = "characters" then
    let blueprint_str := pyLower (Json.dump (context.dictFieldD "blueprint"))
    let characters_str := pyLower (Json.dump data)
    let overlap :=
      keywordOverlap (pySplit blueprint_str) (pySplit characters_str)
    if 0 < overlap then min 15 ((overlap : ℚ) * (1/2)) else 0
  else if task_type = "story_arc" ∨ task_type = "chapters" then
    let blueprint_str := pyLower (Json.dump (context.dictFieldD "blueprint"))
    let output_str := pyLower (Json.dump data)
    let overlap := keywordOverlap (pySplit blueprint_str) (pySplit output_str)
    if 0 < overlap then min 15 ((overlap : ℚ) * (3/10)) else 0
  else 0

/-- `calculate_relevance_with_embeddings` falls back to the heuristic in
the source (`TODO: Implement with actual embeddings`). -/
def calculate_relevance_with_embeddings (data context : Json)
    (task_type : String) : ℚ :=
  calculate_relevance_heuristic data context task_type

/-- `text += char.get(field, "") + " "` over the dict elements of a list. -/
def concatField (field : String) (cs : List Json) : String :=
  cs.foldl
    (fun acc c => match c with
      | .obj _ => acc ++ c.getStrD field ++ " "
      | _ => acc) ""

/-- The text extraction at the head of `calculate_fluency`. -/
def fluencyText (data : Json) (task_type : String) : String :=
  if task_type = "blueprint" then
    data.getStrD "setting" ++ " " ++ data.getStrD "core_conflict"
  else if task_type = "characters" then
    concatField "background" (data.listFieldD "characters")
  else if task_type = "story_arc" then
    concatField "description" (data.listFieldD "chapters")
  else if task_type = "chapters" then
    concatField "content" (data.listFieldD "chapters")
  else ""

/-- The scoring half of `calculate_fluency`, on the extracted text. -/
def fluencyOfText (text : String) (task_type : String) : ℚ :=
  if (pyStrip text).data.isEmpty then 0
  else
    let punctuation : ℚ :=
      if ['。', '！', '？', '.', '!', '?'].any (fun p => text.data.contains p)
      then 2 else 0
    let words := pySplit text
    let repetition : ℚ :=
      if 0 < words.length then
        let repetition_ratio : ℚ := (words.dedup.length : ℚ) / (words.length : ℚ)
        if 6/10 < repetition_ratio then 3
        else if 4/10 < repetition_ratio then 3/2
        else 0
      else 0
    let word_count := words.length
    let length_score : ℚ :=
      if task_type = "chapters" then
        if 500 < word_count then 3 else if 300 < word_count then 3/2 else 0
      else
        if 100 < word_count then 3 else if 50 < word_count then 3/2 else 0
    let sentences :=
      ((splitDot (replaceFullStop text)).map pyStrip).filter
        (fun s => ¬ s.data.isEmpty)
    let variety : ℚ :=
      if 3 < sentences.length then
        let avg_sentence_length : ℚ :=
          ((sentences.map (fun s => (pySplit s).length)).sum : ℚ)
            / (sentences.length : ℚ)
        if 10 < avg_sentence_length ∧ avg_sentence_length < 30 then 2 else 0
      else 0
    min (punctuation + repetition + length_score + variety) 10

/-- `calculate_fluency` of `scoring/content.py` (the 10-point heuristic
fluency component: punctuation 2, repetition 3, length 3, variety 2). -/
def calculate_fluency (data : Json) (task_type : String) : ℚ :=
  fluencyOfText (fluencyText data task_type) task_type

/-- `history[-n:]`. -/
def takeLast {α : Type} (n : ℕ) (l : List α) : List α :=
  l.drop (l.length - n)

/-- `calculate_originality` of `scoring/content.py` (5 points).  The
validator passes the stored structured `output_data` entries as the
history; the SHA-256 exact-duplicate check is modelled as equality of
the canonical serializations. -/
def calculate_originality (data : Json) (history : List Json) : ℚ :=
  if history.isEmpty then 5
  else
    let current_str := dumpsSorted data
    if (takeLast 100 history).any (fun h => dumpsSorted h == current_str)
    then 0
    else
      let max_similarity :=
        ((takeLast 20 history).map (fun h => calculate_similarity data h)).foldl
          max 0
      if max_similarity < 8/10 then 5
      else if max_similarity < 9/10 then 2
      else 0

/-- `calculate_content_score` of `scoring/content.py`, capped at 30
(relevance 15, fluency 10, originality 5). -/
def calculate_content_score (data context : Json) (task_type : String)
    (history : List Json) (use_embeddings : Bool) : ℚ :=
  let relevance :=
    if use_embeddings then
      calculate_relevance_with_embeddings data context task_type
    else calculate_relevance_heuristic data context task_type
  let fluency := calculate_fluency data task_type
  let originality :=
    if ¬ history.isEmpty then calculate_originality data history else 5
  min (relevance + fluency + originality) 30

/-! ### `scoring/narrative.py`

The AI judge call is external I/O; its parsed JSON reply enters the
embedding as an `Option Json` argument (`none` = backend failure or an
unparseable reply).  The result cache recomputes idempotently and is not
modelled.  The configuration is the default one from
`NarrativeEvaluator._get_default_config`. -/

/-- The narrative-evaluator configuration fields the scoring math reads. -/
structure NarrativeConfig where
  enabled : Bool
  fallback_score : ℚ
  dimension_weights : List (String × ℚ)

/-- `_get_default_config` of `scoring/narrative.py` (scoring fields). -/
def defaultNarrativeConfig : NarrativeConfig where
  enabled := true
  fallback_score := 15
  dimension_weights :=
    [("narrative_flow", 30/100), ("emotional_impact", 25/100),
     ("creative_originality", 25/100), ("internal_consistency", 20/100)]

/-- Python `str(v)` as used inside f-strings of `_extract_content`. -/
def pyStr : Json → String
  | .str s => s
  | .num q => toString q
  | .boolean b => if b then "True" else "False"
  | .null => "None"
  | j => Json.dump j

/-- `chap.get(key, dflt)` rendered inside an f-string. -/
def Json.getShowD (j : Json) (key dflt : String) : String :=
  match j.get key with
  | some v => pyStr v
  | none => dflt

/-- `NarrativeEvaluator._extract_content(data, task_type)`. -/
def extract_content (data : Json) (task_type : String) : String :=
  let content_parts : List String :=
    if task_type = "blueprint" then
      let themes := data.listFieldD "themes"
      ["Title: " ++ data.getStrD "title",
       "Genre: " ++ data.getStrD "genre",
       "Setting: " ++ data.getStrD "setting",
       "Core Conflict: " ++ data.getStrD "core_conflict",
       "Themes: " ++ String.intercalate ", "
         (themes.map (fun t => match t with | .str s => s | _ => ""))]
    else if task_type = "characters" then
      ((data.listFieldD "characters").take 5).filterMap (fun c =>
        match c with
        | .obj _ => some ("Character: " ++ c.getShowD "name" "Unknown"
            ++ "\nBackground: " ++ c.getShowD "background" ""
            ++ "\nMotivation: " ++ c.getShowD "motivation" "")
        | _ => none)
    else if task_type = "story_arc" then
      ((data.listFieldD "chapters").take 12).filterMap (fun c =>
        match c with
        | .obj _ => some ("Chapter " ++ c.getShowD "chapter" "?" ++ ": "
            ++ c.getShowD "title" "" ++ "\n" ++ c.getShowD "description" "")
        | _ => none)
    else if task_type = "chapters" then
      ((data.listFieldD "chapters").take 3).filterMap (fun c =>
        match c with
        | .obj _ => some (c.getStrD "content")
        | _ => none)
    else []
  String.intercalate "\n\n" content_parts

/-- `NarrativeEvaluator.evaluate` of `scoring/narrative.py`: disabled or
failed evaluations fall back to the configured score, insufficient
extracted text short-circuits to 5, and a parsed judge reply is
aggregated with the dimension weights (each raw score clamped to [0,5],
the weighted sum scaled by 6 and capped at 30). -/
def narrative_evaluate (config : NarrativeConfig) (data context : Json)
    (task_type : String) (parsed : Option Json) : ℚ :=
  if ¬ config.enabled then config.fallback_score
  else
    let content := extract_content data task_type
    if content.isEmpty ∨ content.length < 50 then 5
    else
      match parsed with
      | none => config.fallback_score
      | some p =>
        let total_score :=
          (config.dimension_weights.map (fun dw =>
            let dim_score : ℚ :=
              match p.get dw.1 with
              | some (.num q) => q
              | some _ => 5/2   -- `float()` of a non-numeric value, totalised
              | none => 5/2     -- `parsed.get(dim, 2.5)`
            (max 0 (min 5 dim_score)) * dw.2 * 6)).sum
        min total_score 30

/-- `calculate_narrative_score` of `scoring/narrative.py` under the
default configuration. -/
def calculate_narrative_score (data context : Json) (task_type : String)
    (parsed : Option Json) : ℚ :=
  narrative_evaluate defaultNarrativeConfig data context task_type parsed

/-! ### `neurons/validator.py` -/

/-- Python substring containment (`needle in hay`) on char lists. -/
def containsSubstring (hay needle : List Char) : Bool :=
  needle.isPrefixOf hay ||
    match hay with
    | [] => false
    | _ :: t => containsSubstring t needle

/-- Python `needle in hay` for strings. -/
def strContains (hay needle : String) : Bool :=
  containsSubstring hay.data needle.data

/-- First binding of `key` in a generic association list. -/
def assocLookup {α : Type} : List (String × α) → String → Option α
  | [], _ => none
  | (k, v) :: rest, key => if k = key then some v else assocLookup rest key

/-- One entry of the `recommended_models` policy list; a missing `bonus`
key defaults to 1.0 at use site. -/
structure RecommendedModel where
  name : String
  bonus : Option ℚ

/-- The `quality_policy` section of the model-policy configuration, with
`Option` fields for the keys whose absence `apply_model_quality_multiplier`
fills with a `.get(..., default)` default. -/
structure QualityPolicy where
  min_quality_score : Option ℚ
  mode_multipliers : List (String × ℚ)
  recommended_models : List RecommendedModel
  blacklisted_models : List String
  no_model_info_penalty : Option ℚ

/-- A miner's `model_info` dict (string-valued entries). -/
abbrev ModelInfo := List (String × String)

/-- `StoryValidator.apply_model_quality_multiplier` of
`neurons/validator.py`: missing/unknown model info applies the
`no_model_info` penalty (default 0.5) and returns at once; otherwise the
mode multiplier is looked up, a blacklisted model name zeroes the score,
a recommended model name multiplies in its bonus, and a base score below
the minimum-quality threshold (default 0.6, on base/100) is zeroed. -/
def apply_model_quality_multiplier (policy : QualityPolicy) (base_score : ℚ)
    (model_info : ModelInfo) : ℚ :=
  if model_info.isEmpty ∨ assocLookup model_info "mode" = some "unknown" then
    base_score * policy.no_model_info_penalty.getD (1/2)
  else
    let mode := (assocLookup model_info "mode").getD "unknown"
    let model_name := (assocLookup model_info "name").getD "unknown"
    let mode_mult := (assocLookup policy.mode_multipliers mode).getD 1
    if policy.blacklisted_models.any (fun b => strContains model_name b) then 0
    else
      let model_bonus :=
        match policy.recommended_models.find?
            (fun r => strContains model_name r.name) with
        | some r => r.bonus.getD 1
        | none => 1
      let final_multiplier := mode_mult * model_bonus
      let final_score := base_score * final_multiplier
      let min_quality := policy.min_quality_score.getD (6/10)
      if base_score / 100 < min_quality then 0
      else final_score

/-- The response fields `score_response` reads from a
`StoryGenerationSynapse`. -/
structure SynapseResponse where
  task_type : String
  output_data : Option Json
  generation_time : ℚ
  model_info : ModelInfo

/-- `StoryValidator.score_response` of `neurons/validator.py`: technical
(30→20), structure (40→30), content (30→20) and narrative (30) scores
summed to a 0–100 base, then adjusted by the model-quality policy.
The `json.dumps`/`json.loads` round trip feeding the technical scorer
always re-parses, hence `some data` is passed on.  `history` is the
last-20 window of stored `output_data` entries the validator passes to
the content scorer; `narrative_reply` the parsed judge reply. -/
def score_response (policy : QualityPolicy) (response : SynapseResponse)
    (context : Json) (history : List Json)
    (narrative_reply : Option Json) : ℚ :=
  match response.output_data with
  | none => 0
  | some data =>
    if ¬ data.truthy then 0
    else
      let required_fields := get_required_output_fields response.task_type
      let tech_score :=
        calculate_technical_score (some data) response.generation_time
          response.task_type required_fields * (20/30)
      let struct_score :=
        calculate_structure_score data response.task_type * (30/40)
      let content_score :=
        calculate_content_score data context response.task_type history false
          * (20/30)
      let narrative_score :=
        calculate_narrative_score data context response.task_type
          narrative_reply
      let base_score :=
        tech_score + struct_score + content_score + narrative_score
      apply_model_quality_multiplier policy base_score response.model_info

/-- Cross-peer scan of `detect_plagiarism`: first concurrent response
(skipping absent/falsy ones, the response itself not among them) whose
similarity exceeds 0.95. -/
def crossPeerScan (current : Json) : List (Option Json) → Option ℚ
  | [] => none
  | none :: rest => crossPeerScan current rest
  | some other :: rest =>
    if ¬ other.truthy then crossPeerScan current rest
    else
      let similarity := calculate_similarity current other
      if 95/100 < similarity then some similarity
      else crossPeerScan current rest

/-- History scan of `detect_plagiarism`: first stored entry (falsy ones
skipped) whose similarity exceeds 0.90. -/
def historyScan (current : Json) : List Json → Option ℚ
  | [] => none
  | h :: rest =>
    if ¬ h.truthy then historyScan current rest
    else
      let similarity := calculate_similarity current h
      if 90/100 < similarity then some similarity
      else historyScan current rest

/-- `StoryValidator.detect_plagiarism` of `neurons/validator.py`,
returning `(is_plagiarism, kind, similarity)`. -/
def detect_plagiarism (current : Option Json) (others : List (Option Json))
    (history : List Json) : Bool × String × ℚ :=
  match current with
  | none => (false, "", 0)
  | some data =>
    if ¬ data.truthy then (false, "", 0)
    else
      match crossPeerScan data others with
      | some s => (true, "cross_miner_copy", s)
      | none =>
        match historyScan data (takeLast 50 history) with
        | some s => (true, "template_reuse", s)
        | none => (false, "original", 0)

/-! #### Weight calculation (`normalize_weights` of `template/utils.py`
and `StoryValidator.calculate_weights`) -/

/-- `normalize_weights(weights)` of `template/utils.py`: divide by the
total, or fall back to equal weights when the total is zero. -/
def normalize_weights (weights : List (ℕ × ℚ)) : List (ℕ × ℚ) :=
  let total := (weights.map Prod.snd).sum
  if total = 0 then
    weights.map (fun p => (p.1, 1 / (weights.length : ℚ)))
  else
    weights.map (fun p => (p.1, p.2 / total))

/-- The `min_weight = 0.001` floor of `calculate_weights`. -/
def min_weight : ℚ := 1/1000

/-- The tail of `StoryValidator.calculate_weights` from the composite
scores on: temperature sharpening (`score ** temperature`, default
temperature 2.0, so the square for the non-negative composites),
normalization, the 0.001 floor, and a second normalization. -/
def calculate_weights (composite_scores : List (ℕ × ℚ)) : List (ℕ × ℚ) :=
  let incentives := composite_scores.map (fun p => (p.1, p.2 ^ (2 : ℕ)))
  let weights := normalize_weights incentives
  let floored := weights.map (fun p => (p.1, max p.2 min_weight))
  normalize_weights floored

/-! #### Violation bookkeeping of `StoryValidator.run_step` -/

/-- `self.violations.get(uid, 0)`. -/
def getViolationCount : List (ℕ × ℕ) → ℕ → ℕ
  | [], _ => 0
  | (k, v) :: rest, uid => if k = uid then v else getViolationCount rest uid

/-- `self.violations[uid] = n` (first binding replaced, else appended). -/
def setViolationCount : List (ℕ × ℕ) → ℕ → ℕ → List (ℕ × ℕ)
  | [], uid, n => [(uid, n)]
  | (k, v) :: rest, uid, n =>
    if k = uid then (uid, n) :: rest else (k, v) :: setViolationCount rest uid n

/-- `self.blacklist.add(uid)` on a duplicate-free list model of the set. -/
def blacklistAdd (blacklist : List ℕ) (uid : ℕ) : List ℕ :=
  if uid ∈ blacklist then blacklist else uid :: blacklist

/-- The validator's mutable plagiarism bookkeeping: `self.violations`
and `self.blacklist`. -/
structure ValidatorState where
  violations : List (ℕ × ℕ)
  blacklist : List ℕ

/-- The per-response bookkeeping of `run_step` (lines 831–843 of
`neurons/validator.py`): a flagged response increments the peer's
violation counter and, at 3 or more violations, adds the peer to the
blacklist; nothing else touches either structure. -/
def record_plagiarism_result (s : ValidatorState) (uid : ℕ)
    (is_plagiarism : Bool) : ValidatorState :=
  if is_plagiarism then
    let v := getViolationCount s.violations uid + 1
    { violations := setViolationCount s.violations uid v,
      blacklist := if 3 ≤ v then blacklistAdd s.blacklist uid else s.blacklist }
  else s

/-- The scoring loop of one `run_step` restricted to its effect on the
plagiarism bookkeeping: each `(uid, is_plagiarism)` outcome processed in
order. -/
def run_step_plagiarism (s : ValidatorState)
    (outcomes : List (ℕ × Bool)) : ValidatorState :=
  outcomes.foldl (fun st e => record_plagiarism_result st e.1 e.2) s

/-! ### Statement-level auxiliary definitions -/

/-- Remove a field from an object (used to state "a response identical
except that one required field is missing"). -/
def removeField (j : Json) (key : String) : Json :=
  match j with
  | .obj kvs => .obj (kvs.filter (fun p => p.1 ≠ key))
  | j => j

/-- A story-arc chapter holding only a numeric `storyProgress`. -/
def arcChapter (q : ℚ) : Json :=
  Json.obj [("storyProgress", Json.num q)]

/-- A story-arc output whose chapters carry the given progress values. -/
def arcData (ps : List ℚ) : Json :=
  Json.obj [("chapters", Json.arr (ps.map arcChapter))]

/-- Value-level core of `normalize_weights`, acting on the weight values
only (the uid keys are carried along unchanged by the real function). -/
def normalizeVals (v : List ℚ) : List ℚ :=
  if v.sum = 0 then v.map (fun _ => 1 / (v.length : ℚ))
  else v.map (fun x => x / v.sum)

/-- A model-policy configuration whose multipliers, bonuses and penalty
all lie in `[0, 1]` (the shape of the shipped default policy, in which
every multiplier is 1.0). -/
def PolicyBounded (policy : QualityPolicy) : Prop :=
  (∀ mm ∈ policy.mode_multipliers, 0 ≤ mm.2 ∧ mm.2 ≤ 1) ∧
  (∀ rm ∈ policy.recommended_models,
    0 ≤ rm.bonus.getD 1 ∧ rm.bonus.getD 1 ≤ 1) ∧
  (0 ≤ policy.no_model_info_penalty.getD (1/2) ∧
    policy.no_model_info_penalty.getD (1/2) ≤ 1)

/-- A blueprint with all seven required fields present and type-correct
and a `themes` list of length 3 (inside the 2–5 window). -/
def overfullBlueprint : Json :=
  Json.obj [("title", Json.str "T"), ("genre", Json.str "G"),
    ("setting", Json.str "S"), ("core_conflict", Json.str "C"),
    ("themes", Json.arr [Json.str "a", Json.str "b", Json.str "c"]),
    ("tone", Json.str "t"), ("target_audience", Json.str "y")]

/-- A blueprint whose seven required fields are all present but all hold
numbers, so every per-field type check fails. -/
def wrongTypedBlueprint : Json :=
  Json.obj [("title", Json.num 1), ("genre", Json.num 1),
    ("setting", Json.num 1), ("core_conflict", Json.num 1),
    ("themes", Json.num 1), ("tone", Json.num 1),
    ("target_audience", Json.num 1)]

/-! ## Theorems -/

/-! ### C10: empty `required_fields` gives full schema credit -/

/-- C10.  For every parsed data mapping and task type, an empty
`required_fields` list makes `calculate_schema_score` return the full
10.0 points without inspecting the data. -/
theorem schema_score_empty_required (data : Json) (task_type : String) :
    calculate_schema_score data [] task_type = 10 := rfl

/-! ### C5: the generation-time score -/

/-- C5 counterexample.  The claim says the time score at
`generation_time = 60` is 0; the code returns
`max(0, 10 - (60-30)*0.33) = 0.1`. -/
theorem time_score_at_60_counterexample :
    calculate_time_score 60 = 1/10 ∧ calculate_time_score 60 ≠ 0 := by
  norm_num [calculate_time_score]

/-- C5 amended.  Full 10 points up to 30 s; on (30 s, 60 s] the score is
`10 - (t - 30) * 0.33` (so it decays linearly at 0.33 pts/s but only
down to 0.1 at t = 60, never reaching 0 on the interval); 0 strictly
beyond 60 s. -/
theorem time_score_piecewise (t : ℚ) :
    (t ≤ 30 → calculate_time_score t = 10) ∧
    (30 < t → t ≤ 60 → calculate_time_score t = 10 - (t - 30) * (33/100)) ∧
    (60 < t → calculate_time_score t = 0) := by
  refine ⟨fun h => ?_, fun h1 h2 => ?_, fun h => ?_⟩
  · simp [calculate_time_score, h]
  · rw [calculate_time_score, if_neg (by linarith), if_pos h2,
      max_eq_right (by linarith)]
  · rw [calculate_time_score, if_neg (by linarith), if_neg (by linarith)]

/-- Witness for C5 at `t = 45`. -/
theorem time_score_piecewise_witness :
    calculate_time_score 45 = 10 - (45 - 30) * (33/100) :=
  (time_score_piecewise 45).2.1 (by norm_num) (by norm_num)

/-! ### C8: missing model info applies the penalty and returns -/

/-- C8.  With `declared_model_info` empty (or its mode `"unknown"`), the
policy engine returns `base_score` times the configured `no_model_info`
penalty (default 0.5) immediately — the result does not depend on the
blacklist, the recommended list or the minimum-quality threshold, and a
positive base with a positive penalty is never zeroed. -/
theorem apply_multiplier_no_model_info (policy : QualityPolicy)
    (base_score : ℚ) (model_info : ModelInfo)
    (h : model_info = [] ∨ assocLookup model_info "mode" = some "unknown") :
    apply_model_quality_multiplier policy base_score model_info =
      base_score * policy.no_model_info_penalty.getD (1/2) ∧
    (0 < base_score → 0 < policy.no_model_info_penalty.getD (1/2) →
      0 < apply_model_quality_multiplier policy base_score model_info) := by
  have hcond : model_info.isEmpty = true ∨
      assocLookup model_info "mode" = some "unknown" := by
    rcases h with h | h
    · exact Or.inl (by simp [h])
    · exact Or.inr h
  have heq : apply_model_quality_multiplier policy base_score model_info =
      base_score * policy.no_model_info_penalty.getD (1/2) := by
    rw [apply_model_quality_multiplier, if_pos hcond]
  exact ⟨heq, fun hb hp => heq ▸ mul_pos hb hp⟩

/-- Witness for C8: an empty `model_info` with no configured penalty
yields `80 * 0.5 = 40`. -/
theorem apply_multiplier_no_model_info_witness :
    apply_model_quality_multiplier ⟨none, [], [], [], none⟩ 80 [] = 40 ∧
    0 < apply_model_quality_multiplier ⟨none, [], [], [], none⟩ 80 [] := by
  have h := apply_multiplier_no_model_info ⟨none, [], [], [], none⟩ 80 []
    (Or.inl rfl)
  refine ⟨?_, h.2 (by norm_num) (by norm_num [Option.getD])⟩
  rw [h.1]
  norm_num [Option.getD]

/-! ### C9: the blacklist latch -/

/-- Membership in the blacklist survives an `add`. -/
theorem mem_blacklistAdd_of_mem {blacklist : List ℕ} {uid other : ℕ}
    (h : uid ∈ blacklist) : uid ∈ blacklistAdd blacklist other := by
  unfold blacklistAdd
  split
  · exact h
  · exact List.mem_cons_of_mem _ h

/-- The added uid is in the blacklist afterwards. -/
theorem mem_blacklistAdd_self (blacklist : List ℕ) (uid : ℕ) :
    uid ∈ blacklistAdd blacklist uid := by
  unfold blacklistAdd
  split
  · assumption
  · exact List.mem_cons_self _ _

/-- No bookkeeping step removes a uid from the blacklist. -/
theorem blacklist_mono (s : ValidatorState) (uid other : ℕ) (flag : Bool)
    (h : uid ∈ s.blacklist) :
    uid ∈ (record_plagiarism_result s other flag).blacklist := by
  unfold record_plagiarism_result
  split
  · simp only
    split
    · exact mem_blacklistAdd_of_mem h
    · exact h
  · exact h

/-- `setViolationCount` followed by a lookup of the same uid. -/
theorem getViolationCount_set (v : List (ℕ × ℕ)) (uid n : ℕ) :
    getViolationCount (setViolationCount v uid n) uid = n := by
  induction v with
  | nil => simp [setViolationCount, getViolationCount]
  | cons p rest ih =>
    by_cases h : p.1 = uid
    · simp [setViolationCount, getViolationCount, h]
    · simpa [setViolationCount, getViolationCount, h] using ih

/-- C9.  A peer whose violation count stands at 2 is blacklisted by the
very violation that brings it to 3, and once blacklisted a peer stays
blacklisted through every further sequence of scoring outcomes — no
later violation and no step of the loop removes it. -/
theorem blacklist_latch (s : ValidatorState) (uid : ℕ)
    (outcomes : List (ℕ × Bool)) :
    (getViolationCount s.violations uid = 2 →
      uid ∈ (record_plagiarism_result s uid true).blacklist) ∧
    (uid ∈ s.blacklist → uid ∈ (run_step_plagiarism s outcomes).blacklist) := by
  constructor
  · intro h2
    unfold record_plagiarism_result
    simp only [if_pos rfl]
    rw [h2]
    norm_num
    exact mem_blacklistAdd_self _ _
  · intro h
    induction outcomes generalizing s with
    | nil => exact h
    | cons e rest ih =>
      exact ih _ (blacklist_mono s uid e.1 e.2 h)

/-- Witness for C9: uid 7 with 2 prior violations is blacklisted by a
third, and a blacklisted uid survives further flagged outcomes. -/
theorem blacklist_latch_witness :
    7 ∈ (record_plagiarism_result ⟨[(7, 2)], []⟩ 7 true).blacklist ∧
    7 ∈ (run_step_plagiarism ⟨[(7, 3)], [7]⟩ [(7, true), (3, true)]).blacklist :=
  ⟨(blacklist_latch ⟨[(7, 2)], []⟩ 7 []).1 (by decide),
   (blacklist_latch ⟨[(7, 3)], [7]⟩ 7 [(7, true), (3, true)]).2 (by decide)⟩

/-! ### C6: bigram-Jaccard similarity -/

/-- A list of length at least 2 zipped with its own tail is non-empty. -/
theorem zip_tail_ne_nil {l : List Char} (h : 2 ≤ l.length) :
    l.zip l.tail ≠ [] := by
  match l with
  | [] => simp at h
  | [a] => simp at h
  | a :: b :: t => simp [List.zip]

/-- A string of length at least 2 has at least one bigram. -/
theorem getBigrams_ne_empty (s : String) (h : 2 ≤ s.length) :
    getBigrams s ≠ ∅ := by
  unfold getBigrams
  have hz : s.data.zip s.data.tail ≠ [] := zip_tail_ne_nil h
  obtain ⟨p, rest, hp⟩ := List.exists_cons_of_ne_nil hz
  intro hempty
  have hmem : p ∈ (s.data.zip s.data.tail).toFinset := by
    rw [hp]; simp
  rw [hempty] at hmem
  exact absurd hmem (Finset.not_mem_empty _)

/-- The bigram-Jaccard function is symmetric. -/
theorem jaccardSimilarity_comm (s1 s2 : String) :
    jaccardSimilarity s1 s2 = jaccardSimilarity s2 s1 := by
  by_cases h1 : getBigrams s1 = ∅ <;> by_cases h2 : getBigrams s2 = ∅ <;>
    simp [jaccardSimilarity, h1, h2, Finset.inter_comm, Finset.union_comm]

/-- Comparing a string of length ≥ 2 with itself yields similarity 1. -/
theorem jaccardSimilarity_self (s : String) (h : 2 ≤ s.length) :
    jaccardSimilarity s s = 1 := by
  have hne := getBigrams_ne_empty s h
  have hcard : 0 < (getBigrams s).card :=
    Finset.card_pos.mpr (Finset.nonempty_iff_ne_empty.mpr hne)
  simp only [jaccardSimilarity, Finset.inter_self, Finset.union_self,
    or_self, if_neg hne, if_pos hcard]
  exact div_self (by exact_mod_cast hcard.ne')

/-- The serialization of an object has at least the two brace characters. -/
theorem two_le_length_dump_obj (kvs : List (String × Json)) :
    2 ≤ (Json.dump (Json.obj kvs)).length := by
  have hdump : Json.dump (Json.obj kvs) = "\x7b" ++ dumpMembers kvs ++ "\x7d" := rfl
  have h1 : ("\x7b" : String).length = 1 := rfl
  have h2 : ("\x7d" : String).length = 1 := rfl
  rw [hdump]
  simp only [String.length_append, h1, h2]
  omega

/-- C6.  `calculate_similarity` is symmetric, and comparing any
structured (dict-shaped) output with an identical copy yields similarity
1.0, which exceeds both the cross-peer flagging threshold 0.95 and the
history flagging threshold 0.90 used by `detect_plagiarism`. -/
theorem similarity_symmetric_and_identity :
    (∀ a b : Json, calculate_similarity a b = calculate_similarity b a) ∧
    (∀ kvs : List (String × Json),
      calculate_similarity (Json.obj kvs) (Json.obj kvs) = 1 ∧
      95/100 < calculate_similarity (Json.obj kvs) (Json.obj kvs) ∧
      90/100 < calculate_similarity (Json.obj kvs) (Json.obj kvs)) := by
  constructor
  · intro a b
    exact jaccardSimilarity_comm _ _
  · intro kvs
    have hsort : (Json.obj kvs).sortKeysDeep =
        Json.obj (sortByKey (sortMembers kvs)) := rfl
    have h1 : calculate_similarity (Json.obj kvs) (Json.obj kvs) = 1 := by
      unfold calculate_similarity dumpsSorted
      rw [hsort]
      exact jaccardSimilarity_self _ (two_le_length_dump_obj _)
    refine ⟨h1, ?_, ?_⟩ <;> rw [h1] <;> norm_num

/-! ### C3: the schema-completeness component -/

/-- C3 counterexample.  The claim says the schema-completeness component
never exceeds the 10-point ceiling; on a fully correct blueprint the
themes-length bonus pushes the type-correctness ratio to 7.5/7, so the
component is `10 * 7.5/7 = 75/7 > 10` (only the technical total is
capped at 30, not this component). -/
theorem schema_score_ceiling_counterexample :
    ((get_required_output_fields "blueprint").all
      (fun f => overfullBlueprint.hasField f) = true) ∧
    10 < calculate_schema_score overfullBlueprint
      (get_required_output_fields "blueprint") "blueprint" := by
  constructor
  · decide
  · have heval : calculate_schema_score overfullBlueprint
        (get_required_output_fields "blueprint") "blueprint" = 75/7 := by
      simp [calculate_schema_score, get_required_output_fields,
        validate_field_types, blueprintTypeLoop, blueprintChecks,
        overfullBlueprint, Json.get, lookupField, Json.hasField,
        Json.isinstance, Json.isStr, Json.isList]
      norm_num
    rw [heval]
    norm_num

/-- Length of a string list splits into the fields present and missing. -/
theorem length_filter_hasField_split (data : Json) (l : List String) :
    l.length = (l.filter (fun f => data.hasField f)).length +
      (l.filter (fun f => ¬ data.hasField f)).length := by
  simpa using
    List.length_eq_length_filter_add (l := l) (fun g => data.hasField g)

/-- With every required field present, the schema score is 10 times the
type-correctness ratio. -/
theorem schema_score_of_all_present (data : Json)
    (required_fields : List String) (task_type : String)
    (hne : required_fields ≠ [])
    (hall : ∀ f ∈ required_fields, data.hasField f) :
    calculate_schema_score data required_fields task_type =
      10 * validate_field_types data task_type := by
  have hmiss : required_fields.filter (fun f => ¬ data.hasField f) = [] := by
    simp only [List.filter_eq_nil_iff]
    intro f hf
    simp [hall f hf]
  rw [calculate_schema_score, if_neg hne]
  simp only [hmiss]
  rw [if_true]

/-- With some required field missing, the schema score is 10 times the
fraction of required fields present. -/
theorem schema_score_of_missing (data : Json)
    (required_fields : List String) (task_type : String)
    (hne : required_fields ≠ [])
    (hex : ∃ f ∈ required_fields, ¬ data.hasField f) :
    calculate_schema_score data required_fields task_type =
      10 * (((required_fields.filter (fun f => data.hasField f)).length : ℚ) /
        (required_fields.length : ℚ)) := by
  obtain ⟨f, hf, hnf⟩ := hex
  have hmem : f ∈ required_fields.filter (fun g => ¬ data.hasField g) :=
    List.mem_filter.mpr ⟨hf, by simpa using hnf⟩
  have hmiss : required_fields.filter (fun g => ¬ data.hasField g) ≠ [] := by
    intro h0
    rw [h0] at hmem
    exact absurd hmem (List.not_mem_nil f)
  have hsplit := length_filter_hasField_split data required_fields
  have hq : ((required_fields.length : ℚ) -
      ((required_fields.filter (fun g => ¬ data.hasField g)).length : ℚ)) =
      ((required_fields.filter (fun g => data.hasField g)).length : ℚ) := by
    rw [hsplit]
    push_cast
    ring
  rw [calculate_schema_score, if_neg hne]
  simp only [if_neg hmiss]
  rw [hq]

/-- C3 amended.  With all required fields present the component equals
10 scaled by the type-correctness ratio — a quantity that can exceed 1
(so the component can exceed 10; only the 30-point technical total is
capped); with some field missing it equals 10 scaled by
`present_fields / len(required_fields)`. -/
theorem schema_score_formula (data : Json) (required_fields : List String)
    (task_type : String) (hne : required_fields ≠ []) :
    ((∀ f ∈ required_fields, data.hasField f) →
      calculate_schema_score data required_fields task_type =
        10 * validate_field_types data task_type) ∧
    ((∃ f ∈ required_fields, ¬ data.hasField f) →
      calculate_schema_score data required_fields task_type =
        10 * (((required_fields.filter (fun f => data.hasField f)).length : ℚ) /
          (required_fields.length : ℚ))) :=
  ⟨fun hall => schema_score_of_all_present data required_fields task_type hne hall,
   fun hex => schema_score_of_missing data required_fields task_type hne hex⟩

/-- Witness for C3 (missing-fields branch): a blueprint carrying only
`title` scores `10 * 1/7`. -/
theorem schema_score_formula_witness :
    calculate_schema_score (Json.obj [("title", Json.str "T")])
      (get_required_output_fields "blueprint") "blueprint" =
      10 * ((1 : ℚ) / 7) := by
  have h := (schema_score_formula (Json.obj [("title", Json.str "T")])
    (get_required_output_fields "blueprint") "blueprint" (by decide)).2
    ⟨"genre", by decide, by decide⟩
  have hfilter : List.filter
      (fun f => (Json.obj [("title", Json.str "T")]).hasField f)
      (get_required_output_fields "blueprint") = ["title"] := by decide
  rw [h, hfilter]
  norm_num [get_required_output_fields]

/-! ### C4: monotonicity of the technical score in field completeness -/

/-- Looking a key up after filtering out another key. -/
theorem lookupField_filter_ne (kvs : List (String × Json)) (key g : String) :
    lookupField (kvs.filter (fun p => p.1 ≠ key)) g =
      if g = key then none else lookupField kvs g := by
  induction kvs with
  | nil => simp [lookupField, ite_self]
  | cons p rest ih =>
    obtain ⟨k, v⟩ := p
    by_cases hk : k = key <;> by_cases hkg : k = g <;>
      simp_all [List.filter_cons, lookupField, ite_self]

/-- Field presence after removing a field. -/
theorem hasField_removeField (A : Json) (key g : String) :
    (removeField A key).hasField g =
      if g = key then false else A.hasField g := by
  cases A with
  | obj kvs =>
    simp only [removeField, Json.hasField, Json.get, lookupField_filter_ne]
    split <;> simp
  | str s => simp [removeField, Json.hasField, Json.get, ite_self]
  | num q => simp [removeField, Json.hasField, Json.get, ite_self]
  | boolean b => simp [removeField, Json.hasField, Json.get, ite_self]
  | null => simp [removeField, Json.hasField, Json.get, ite_self]
  | arr xs => simp [removeField, Json.hasField, Json.get, ite_self]

/-- The generation-time score is non-negative. -/
theorem time_score_nonneg (t : ℚ) : 0 ≤ calculate_time_score t := by
  unfold calculate_time_score
  split
  · norm_num
  · split
    · exact le_max_left 0 _
    · exact le_refl 0

/-- The generation-time score is at most 10. -/
theorem time_score_le_ten (t : ℚ) : calculate_time_score t ≤ 10 := by
  unfold calculate_time_score
  split
  · exact le_refl 10
  · split
    · refine max_le (by norm_num) ?_
      have h30 : ¬ t ≤ 30 := by assumption
      have := le_of_not_le h30
      linarith
    · norm_num

/-- C4 counterexample.  The claim says a blueprint with complete
required fields always outscores one missing a field.  With complete
but wrongly-typed fields the schema component is `10 * 0/7 = 0`, while
dropping `title` moves scoring to the fraction-present branch worth
`10 * 6/7`, so the complete response scores strictly less
(20 < 10 + 60/7 + 10 at `generation_time = 5`). -/
theorem technical_monotonicity_counterexample :
    ((get_required_output_fields "blueprint").all
      (fun f => wrongTypedBlueprint.hasField f) = true) ∧
    calculate_technical_score (some wrongTypedBlueprint) 5 "blueprint"
        (get_required_output_fields "blueprint") <
      calculate_technical_score
        (some (removeField wrongTypedBlueprint "title")) 5 "blueprint"
        (get_required_output_fields "blueprint") := by
  constructor
  · decide
  · have hA : calculate_technical_score (some wrongTypedBlueprint) 5
        "blueprint" (get_required_output_fields "blueprint") = 20 := by
      simp [calculate_technical_score, calculate_schema_score,
        calculate_time_score, get_required_output_fields,
        validate_field_types, blueprintTypeLoop, blueprintChecks,
        wrongTypedBlueprint, Json.get, lookupField, Json.hasField,
        Json.isinstance, Json.isStr, Json.isList]
      norm_num
    have hB : calculate_technical_score
        (some (removeField wrongTypedBlueprint "title")) 5 "blueprint"
        (get_required_output_fields "blueprint") = 10 + 10 * (6/7) + 10 := by
      simp [calculate_technical_score, calculate_schema_score,
        calculate_time_score, get_required_output_fields, removeField,
        validate_field_types, blueprintTypeLoop, blueprintChecks,
        wrongTypedBlueprint, Json.get, lookupField, Json.hasField,
        Json.isinstance, Json.isStr, Json.isList, List.filter]
      norm_num
    rw [hA, hB]
    norm_num

/-- C4 amended.  For a blueprint A containing all required fields whose
type-correctness ratio exceeds 6/7 (in particular for one whose fields
all pass their type checks), removing any one required field strictly
lowers the technical score at equal generation time. -/
theorem technical_score_monotone_amended (A : Json) (f : String) (t : ℚ)
    (hall : ∀ g ∈ get_required_output_fields "blueprint", A.hasField g)
    (hf : f ∈ get_required_output_fields "blueprint")
    (hty : 6/7 < validate_field_types A "blueprint") :
    calculate_technical_score (some (removeField A f)) t "blueprint"
        (get_required_output_fields "blueprint") <
      calculate_technical_score (some A) t "blueprint"
        (get_required_output_fields "blueprint") := by
  have hne : get_required_output_fields "blueprint" ≠ [] := by decide
  have hlen7 : (get_required_output_fields "blueprint").length = 7 := by decide
  -- schema score of the complete response
  have hA : calculate_schema_score A (get_required_output_fields "blueprint")
      "blueprint" = 10 * validate_field_types A "blueprint" :=
    schema_score_of_all_present A _ _ hne hall
  -- the missing-field filter of the response with `f` removed is `[f]`
  have hmissB : (get_required_output_fields "blueprint").filter
      (fun g => ¬ (removeField A f).hasField g) =
      (get_required_output_fields "blueprint").filter (fun g => g = f) := by
    apply List.filter_congr
    intro g hg
    by_cases hgf : g = f
    · simp [hasField_removeField, hgf]
    · simp [hasField_removeField, hgf, hall g hg]
  have hmissBlen : ((get_required_output_fields "blueprint").filter
      (fun g => ¬ (removeField A f).hasField g)).length = 1 := by
    rw [hmissB]
    have hf' : f = "title" ∨ f = "genre" ∨ f = "setting" ∨
        f = "core_conflict" ∨ f = "themes" ∨ f = "tone" ∨
        f = "target_audience" := by
      simpa [get_required_output_fields] using hf
    rcases hf' with rfl | rfl | rfl | rfl | rfl | rfl | rfl <;> decide
  have hposBlen : ((get_required_output_fields "blueprint").filter
      (fun g => (removeField A f).hasField g)).length = 6 := by
    have hs := length_filter_hasField_split (removeField A f)
      (get_required_output_fields "blueprint")
    omega
  have hB : calculate_schema_score (removeField A f)
      (get_required_output_fields "blueprint") "blueprint" = 10 * (6/7) := by
    rw [schema_score_of_missing (removeField A f) _ _ hne
      ⟨f, hf, by rw [hasField_removeField]; simp⟩, hposBlen, hlen7]
    norm_num
  have hts0 := time_score_nonneg t
  have hts10 := time_score_le_ten t
  simp only [calculate_technical_score, hA, hB]
  have hBlt : (10 : ℚ) + 10 * (6/7) + calculate_time_score t < 30 := by
    linarith
  rw [min_eq_left hBlt.le]
  exact lt_min (by linarith) hBlt

/-- Witness for C4: the fully typed blueprint (`ratio 7.5/7 > 6/7`)
against itself minus `title`, at `generation_time = 5`. -/
theorem technical_score_monotone_amended_witness :
    calculate_technical_score (some (removeField overfullBlueprint "title")) 5
        "blueprint" (get_required_output_fields "blueprint") <
      calculate_technical_score (some overfullBlueprint) 5 "blueprint"
        (get_required_output_fields "blueprint") := by
  apply technical_score_monotone_amended overfullBlueprint "title" 5
  · decide
  · decide
  · have : validate_field_types overfullBlueprint "blueprint" = 15/14 := by
      simp [validate_field_types, blueprintTypeLoop, blueprintChecks,
        overfullBlueprint, Json.get, lookupField, Json.isinstance,
        Json.isStr, Json.isList]
      norm_num
    rw [this]
    norm_num

/-! ### C7: one monotonic-progress violation in a 12-chapter arc -/

/-- One step of the violation-count loop on a progress-only chapter. -/
theorem violationLoop_cons_arc (prev : ℚ) (acc : ℕ) (q : ℚ)
    (rest : List Json) :
    violationLoop prev acc (arcChapter q :: rest) =
      violationLoop q (if q ≤ prev then acc + 1 else acc) rest := rfl

/-- One step of the monotonicity loop on a progress-only chapter. -/
theorem monoLoop_cons_arc (prev : ℚ) (q : ℚ) (rest : List Json) :
    monoLoop prev (arcChapter q :: rest) =
      if q ≤ prev then false else monoLoop q rest := rfl

/-- C7.  A 12-chapter story arc whose `storyProgress` values increase
strictly except that chapter 7 repeats chapter 6's value produces
exactly one violation, and the progress-monotonicity component of the
structure score is `10 * (1 - 1/12)`. -/
theorem story_arc_single_violation
    (p0 p1 p2 p3 p4 p5 p6 p7 p8 p9 p10 p11 : ℚ)
    (hstart : -1 < p0) (h1 : p0 < p1) (h2 : p1 < p2) (h3 : p2 < p3)
    (h4 : p3 < p4) (h5 : p4 < p5) (heq : p6 = p5) (h7 : p6 < p7)
    (h8 : p7 < p8) (h9 : p8 < p9) (h10 : p9 < p10) (h11 : p10 < p11) :
    count_progress_violations
        ([p0, p1, p2, p3, p4, p5, p6, p7, p8, p9, p10, p11].map arcChapter)
      = 1 ∧
    (score_story_arc_structure (arcData
        [p0, p1, p2, p3, p4, p5, p6, p7, p8, p9, p10, p11])).2.progress_monotonic
      = 10 * (1 - 1/12) := by
  have hcount : count_progress_violations
      ([p0, p1, p2, p3, p4, p5, p6, p7, p8, p9, p10, p11].map arcChapter)
      = 1 := by
    unfold count_progress_violations
    simp only [List.map_cons, List.map_nil]
    rw [violationLoop_cons_arc, if_neg (not_le.mpr hstart),
      violationLoop_cons_arc, if_neg (not_le.mpr h1),
      violationLoop_cons_arc, if_neg (not_le.mpr h2),
      violationLoop_cons_arc, if_neg (not_le.mpr h3),
      violationLoop_cons_arc, if_neg (not_le.mpr h4),
      violationLoop_cons_arc, if_neg (not_le.mpr h5),
      violationLoop_cons_arc, if_pos (le_of_eq heq),
      violationLoop_cons_arc, if_neg (not_le.mpr h7),
      violationLoop_cons_arc, if_neg (not_le.mpr h8),
      violationLoop_cons_arc, if_neg (not_le.mpr h9),
      violationLoop_cons_arc, if_neg (not_le.mpr h10),
      violationLoop_cons_arc, if_neg (not_le.mpr h11)]
    rfl
  have hmono : is_progress_monotonic
      ([p0, p1, p2, p3, p4, p5, p6, p7, p8, p9, p10, p11].map arcChapter)
      = false := by
    unfold is_progress_monotonic
    simp only [List.map_cons, List.map_nil]
    rw [monoLoop_cons_arc, if_neg (not_le.mpr hstart),
      monoLoop_cons_arc, if_neg (not_le.mpr h1),
      monoLoop_cons_arc, if_neg (not_le.mpr h2),
      monoLoop_cons_arc, if_neg (not_le.mpr h3),
      monoLoop_cons_arc, if_neg (not_le.mpr h4),
      monoLoop_cons_arc, if_neg (not_le.mpr h5),
      monoLoop_cons_arc, if_pos (le_of_eq heq)]
  refine ⟨hcount, ?_⟩
  have hget : (arcData [p0, p1, p2, p3, p4, p5, p6, p7, p8, p9, p10, p11]).get
      "chapters" = some (Json.arr
        ([p0, p1, p2, p3, p4, p5, p6, p7, p8, p9, p10, p11].map arcChapter)) :=
    rfl
  simp only [score_story_arc_structure, hget, hmono, hcount,
    Bool.false_eq_true, if_false, List.length_map, List.length_cons,
    List.length_nil]
  norm_num

/-- Witness for C7 at the progress values 1, …, 6, 6, 7, …, 11. -/
theorem story_arc_single_violation_witness :
    count_progress_violations
        (([1, 2, 3, 4, 5, 6, 6, 7, 8, 9, 10, 11] :
          List ℚ).map arcChapter) = 1 ∧
    (score_story_arc_structure (arcData
        [1, 2, 3, 4, 5, 6, 6, 7, 8, 9, 10, 11])).2.progress_monotonic
      = 10 * (1 - 1/12) := by
  refine story_arc_single_violation 1 2 3 4 5 6 6 7 8 9 10 11 ?_ ?_ ?_ ?_ ?_
    ?_ ?_ ?_ ?_ ?_ ?_ ?_ <;> norm_num

/-! ### C1: weight normalization and the minimum-weight floor -/

/-- Sum of the values after dividing every value by `t`. -/
theorem sum_snd_map_div (l : List (ℕ × ℚ)) (t : ℚ) :
    ((l.map (fun p => (p.1, p.2 / t))).map Prod.snd).sum =
      ((l.map Prod.snd).sum) / t := by
  induction l with
  | nil => simp
  | cons p rest ih =>
    simp only [List.map_cons, List.sum_cons, ih, add_div]

/-- Sum of the values after replacing every value by a constant. -/
theorem sum_snd_map_const (l : List (ℕ × ℚ)) (c : ℚ) :
    ((l.map (fun p => (p.1, c))).map Prod.snd).sum = (l.length : ℚ) * c := by
  induction l with
  | nil => simp
  | cons p rest ih =>
    simp only [List.map_cons, List.sum_cons, List.length_cons, ih]
    push_cast
    ring

/-- `normalize_weights` preserves the number of entries. -/
theorem normalize_weights_length (l : List (ℕ × ℚ)) :
    (normalize_weights l).length = l.length := by
  simp only [normalize_weights]
  split <;> simp

/-- `normalize_weights` of a non-empty map sums to exactly 1 (also in
the degenerate all-zero case, via the equal-weights fallback). -/
theorem normalize_weights_sum (l : List (ℕ × ℚ)) (hne : l ≠ []) :
    ((normalize_weights l).map Prod.snd).sum = 1 := by
  have hlen : (l.length : ℚ) ≠ 0 := by
    have := List.length_pos.mpr hne
    exact_mod_cast this.ne'
  by_cases h : (l.map Prod.snd).sum = 0
  · simp only [normalize_weights, if_pos h, sum_snd_map_const]
    field_simp
  · simp only [normalize_weights, if_neg h, sum_snd_map_div]
    exact div_self h

/-- `normalize_weights` keeps non-negative values non-negative. -/
theorem normalize_weights_nonneg (l : List (ℕ × ℚ))
    (h : ∀ p ∈ l, 0 ≤ p.2) :
    ∀ p ∈ normalize_weights l, 0 ≤ p.2 := by
  intro p hp
  have hsum : 0 ≤ (l.map Prod.snd).sum := by
    apply List.sum_nonneg
    intro x hx
    obtain ⟨q, hq, rfl⟩ := List.mem_map.mp hx
    exact h q hq
  simp only [normalize_weights] at hp
  by_cases hs : (l.map Prod.snd).sum = 0
  · rw [if_pos hs] at hp
    obtain ⟨q, hq, rfl⟩ := List.mem_map.mp hp
    have : (0:ℚ) ≤ (l.length : ℚ) := by positivity
    simp only
    positivity
  · rw [if_neg hs] at hp
    obtain ⟨q, hq, rfl⟩ := List.mem_map.mp hp
    exact div_nonneg (h q hq) hsum

/-- Flooring the values raises the total by at most `length * m`. -/
theorem sum_snd_map_max_le (l : List (ℕ × ℚ)) (m : ℚ) (hm : 0 ≤ m)
    (h : ∀ p ∈ l, 0 ≤ p.2) :
    ((l.map (fun p => (p.1, max p.2 m))).map Prod.snd).sum ≤
      (l.map Prod.snd).sum + (l.length : ℚ) * m := by
  induction l with
  | nil => simp
  | cons p rest ih =>
    have hp := h p (List.mem_cons_self p rest)
    have hrest := ih (fun q hq => h q (List.mem_cons_of_mem _ hq))
    have hmax : max p.2 m ≤ p.2 + m := max_le (by linarith) (by linarith)
    simp only [List.map_cons, List.sum_cons, List.length_cons]
    have hexp : ((rest.length + 1 : ℕ) : ℚ) * m = (rest.length : ℚ) * m + m := by
      push_cast
      ring
    rw [hexp]
    linarith

/-- Every floored value is at least the floor. -/
theorem snd_map_max_ge (l : List (ℕ × ℚ)) (m : ℚ) :
    ∀ p ∈ l.map (fun p => (p.1, max p.2 m)), m ≤ p.2 := by
  intro p hp
  obtain ⟨q, hq, rfl⟩ := List.mem_map.mp hp
  exact le_max_right _ _

/-- A non-empty map whose values all reach `m > 0` has a positive total. -/
theorem sum_snd_pos (l : List (ℕ × ℚ)) (m : ℚ) (hm : 0 < m) (hne : l ≠ [])
    (h : ∀ p ∈ l, m ≤ p.2) : 0 < (l.map Prod.snd).sum := by
  match l with
  | p :: rest =>
    simp only [List.map_cons, List.sum_cons]
    have h1 : m ≤ p.2 := h p (List.mem_cons_self p rest)
    have h2 : 0 ≤ (rest.map Prod.snd).sum := by
      apply List.sum_nonneg
      intro x hx
      obtain ⟨q, hq, rfl⟩ := List.mem_map.mp hx
      exact le_trans hm.le (h q (List.mem_cons_of_mem _ hq))
    linarith

/-- C1 counterexample.  On the composite map `{1: 1.0, 2: 0.01}` the
squared incentives are `{1: 1, 2: 1/10000}`, the floored weight of peer
2 is re-normalized to `10001/10010001 < 0.001`, so the claim's
"every weight ≥ the 0.001 floor" fails (the sum-to-1 half does hold). -/
theorem weight_floor_counterexample :
    ¬ ((((calculate_weights [(1, (1:ℚ)), (2, 1/100)]).map Prod.snd).sum = 1) ∧
      ∀ p ∈ calculate_weights [(1, (1:ℚ)), (2, 1/100)], min_weight ≤ p.2) := by
  have heval : calculate_weights [(1, (1:ℚ)), (2, 1/100)] =
      [(1, 10000000/10010001), (2, 10001/10010001)] := by
    norm_num [calculate_weights, normalize_weights, min_weight, max_def]
  rintro ⟨-, hall⟩
  have hmem : ((2 : ℕ), (10001/10010001 : ℚ)) ∈
      calculate_weights [(1, (1:ℚ)), (2, 1/100)] := by
    rw [heval]
    simp
  have := hall _ hmem
  norm_num [min_weight] at this

/-- C1 amended.  For every non-empty composite-score map the calculator's
output sums to exactly 1, and every output weight is at least
`0.001 / (1 + n * 0.001)` (`n` the number of peers) — strictly positive,
but the second normalization can push floored weights back below the
0.001 floor itself. -/
theorem calculate_weights_normalized (composite_scores : List (ℕ × ℚ))
    (hne : composite_scores ≠ []) :
    ((calculate_weights composite_scores).map Prod.snd).sum = 1 ∧
    ∀ p ∈ calculate_weights composite_scores,
      min_weight / (1 + (composite_scores.length : ℚ) * min_weight) ≤ p.2 := by
  have hm : (0:ℚ) < min_weight := by norm_num [min_weight]
  set incentives := composite_scores.map (fun p => (p.1, p.2 ^ (2 : ℕ)))
    with hinc
  have hinc_ne : incentives ≠ [] := by
    rw [hinc]
    simpa using hne
  have hinc_nonneg : ∀ p ∈ incentives, 0 ≤ p.2 := by
    intro p hp
    rw [hinc] at hp
    obtain ⟨q, hq, rfl⟩ := List.mem_map.mp hp
    exact sq_nonneg q.2
  set weights := normalize_weights incentives with hw
  have hw_ne : weights ≠ [] := by
    rw [hw]
    intro h0
    have := normalize_weights_length incentives
    rw [h0] at this
    exact hinc_ne (List.length_eq_zero.mp this.symm)
  have hw_sum : ((weights.map Prod.snd).sum) = 1 :=
    normalize_weights_sum incentives hinc_ne
  have hw_nonneg : ∀ p ∈ weights, 0 ≤ p.2 :=
    normalize_weights_nonneg incentives hinc_nonneg
  have hw_len : weights.length = composite_scores.length := by
    rw [hw, normalize_weights_length, hinc, List.length_map]
  set floored := weights.map (fun p => (p.1, max p.2 min_weight)) with hfl
  have hfl_ne : floored ≠ [] := by
    rw [hfl]
    simpa using hw_ne
  have hfl_ge : ∀ p ∈ floored, min_weight ≤ p.2 := snd_map_max_ge weights _
  have hS_pos : 0 < (floored.map Prod.snd).sum :=
    sum_snd_pos floored min_weight hm hfl_ne hfl_ge
  have hS_le : (floored.map Prod.snd).sum ≤
      1 + (composite_scores.length : ℚ) * min_weight := by
    have := sum_snd_map_max_le weights min_weight hm.le hw_nonneg
    rw [hw_sum, hw_len] at this
    exact this
  have hcw : calculate_weights composite_scores = normalize_weights floored := by
    rw [calculate_weights]
  constructor
  · rw [hcw]
    exact normalize_weights_sum floored hfl_ne
  · intro p hp
    rw [hcw] at hp
    simp only [normalize_weights, if_neg hS_pos.ne'] at hp
    obtain ⟨q, hq, rfl⟩ := List.mem_map.mp hp
    have hq_ge : min_weight ≤ q.2 := hfl_ge q hq
    exact div_le_div₀ (le_trans hm.le hq_ge) hq_ge hS_pos hS_le

/-- Witness for C1 on the composite map `{1: 0.9, 2: 0.2}`. -/
theorem calculate_weights_normalized_witness :
    ((calculate_weights [(1, (9:ℚ)/10), (2, 2/10)]).map Prod.snd).sum = 1 ∧
    ∀ p ∈ calculate_weights [(1, (9:ℚ)/10), (2, 2/10)],
      min_weight / (1 + ((2:ℕ) : ℚ) * min_weight) ≤ p.2 := by
  have h := calculate_weights_normalized [(1, (9:ℚ)/10), (2, 2/10)]
    (by simp)
  simpa using h

/-! ### C2: boundedness of the scoring pipeline -/

/-- The blueprint type-check loop accumulates non-negative counters. -/
theorem blueprintTypeLoop_nonneg (data : Json)
    (checks : List (String × PyType)) :
    0 ≤ (blueprintTypeLoop data checks).1 ∧
      0 ≤ (blueprintTypeLoop data checks).2 := by
  induction checks with
  | nil => simp [blueprintTypeLoop]
  | cons ct rest ih =>
    obtain ⟨field, ty⟩ := ct
    rcases hpr : blueprintTypeLoop data rest with ⟨c, t⟩
    rw [hpr] at ih
    simp only at ih
    obtain ⟨hc, ht⟩ := ih
    simp only [blueprintTypeLoop, hpr]
    cases hget : data.get field with
    | none => exact ⟨hc, ht⟩
    | some v =>
      dsimp only
      refine ⟨?_, by linarith⟩
      cases v <;> dsimp only <;> split_ifs <;> linarith

/-- The story-arc type-check loop accumulates non-negative counters. -/
theorem storyArcTypeLoop_nonneg (data : Json)
    (checks : List (String × PyType)) :
    0 ≤ (storyArcTypeLoop data checks).1 ∧
      0 ≤ (storyArcTypeLoop data checks).2 := by
  induction checks with
  | nil => simp [storyArcTypeLoop]
  | cons ct rest ih =>
    obtain ⟨field, ty⟩ := ct
    rcases hpr : storyArcTypeLoop data rest with ⟨c, t⟩
    rw [hpr] at ih
    simp only at ih
    obtain ⟨hc, ht⟩ := ih
    simp only [storyArcTypeLoop, hpr]
    cases hget : data.get field with
    | none => exact ⟨hc, ht⟩
    | some v =>
      dsimp only
      refine ⟨?_, by linarith⟩
      split_ifs <;> linarith

/-- The type-correctness ratio is non-negative. -/
theorem validate_field_types_nonneg (data : Json) (task_type : String) :
    0 ≤ validate_field_types data task_type := by
  unfold validate_field_types
  split_ifs with h1 h2 h3 h4
  · rcases hpr : blueprintTypeLoop data blueprintChecks with ⟨c, t⟩
    have hct := blueprintTypeLoop_nonneg data blueprintChecks
    rw [hpr] at hct
    simp only at hct
    dsimp only
    split_ifs
    · exact div_nonneg hct.1 hct.2
    · norm_num
  · rcases hget : data.get "characters" with _ | v
    · norm_num
    · cases v <;> dsimp only <;> try exact le_refl 0
      rename_i cs
      split_ifs
      · norm_num
      · rw [div_one]
        exact le_min (by positivity) (by norm_num)
  · rcases hpr : storyArcTypeLoop data storyArcChecks with ⟨c, t⟩
    have hct := storyArcTypeLoop_nonneg data storyArcChecks
    rw [hpr] at hct
    simp only at hct
    dsimp only
    rcases hget : data.get "chapters" with _ | v
    · dsimp only
      split_ifs
      · exact div_nonneg hct.1 hct.2
      · norm_num
    · cases v <;> dsimp only <;> split_ifs <;>
        first
          | exact div_nonneg hct.1 hct.2
          | exact div_nonneg (add_nonneg hct.1 zero_le_one) hct.2
          | norm_num
  · rcases hget : data.get "chapters" with _ | v
    · norm_num
    · cases v <;> dsimp only <;> try exact le_refl 0
      split_ifs <;> norm_num
  · norm_num

/-- The schema-completeness component is non-negative. -/
theorem schema_score_nonneg (data : Json) (required_fields : List String)
    (task_type : String) :
    0 ≤ calculate_schema_score data required_fields task_type := by
  simp only [calculate_schema_score]
  split_ifs with h1 h2
  · norm_num
  · have := validate_field_types_nonneg data task_type
    linarith
  · have hle := List.length_filter_le
      (fun f => ¬ data.hasField f) required_fields
    have hq : ((required_fields.filter (fun f => ¬ data.hasField f)).length : ℚ)
        ≤ (required_fields.length : ℚ) := by exact_mod_cast hle
    have hlen : (0:ℚ) ≤ (required_fields.length : ℚ) := by positivity
    have hnum : (0:ℚ) ≤ (required_fields.length : ℚ) -
        ((required_fields.filter (fun f => ¬ data.hasField f)).length : ℚ) := by
      linarith
    positivity

/-- C2 helper: the technical score lies in [0, 30]. -/
theorem technical_score_bounds (parsed : Option Json) (generation_time : ℚ)
    (task_type : String) (required_fields : List String) :
    0 ≤ calculate_technical_score parsed generation_time task_type
        required_fields ∧
      calculate_technical_score parsed generation_time task_type
        required_fields ≤ 30 := by
  cases parsed with
  | none => simp [calculate_technical_score]
  | some data =>
    simp only [calculate_technical_score]
    have hs := schema_score_nonneg data required_fields task_type
    have ht0 := time_score_nonneg generation_time
    constructor
    · exact le_min (by linarith) (by norm_num)
    · exact min_le_right _ _

/-- An average of non-negative entries is non-negative. -/
theorem listAvg_nonneg (l : List ℚ) (h : ∀ x ∈ l, 0 ≤ x) : 0 ≤ listAvg l := by
  unfold listAvg
  split
  · norm_num
  · exact div_nonneg (List.sum_nonneg h) (by positivity)

/-- The blueprint structure rubric is non-negative. -/
theorem score_blueprint_structure_nonneg (data : Json) :
    0 ≤ score_blueprint_structure data := by
  simp only [score_blueprint_structure]
  refine add_nonneg (add_nonneg ?_ ?_) ?_
  · positivity
  · apply add_nonneg <;> split_ifs <;> norm_num
  · rcases hget : data.get "themes" with _ | v
    · norm_num
    · cases v <;> dsimp only <;> try norm_num
      split_ifs <;> norm_num

/-- A per-character completeness entry is non-negative. -/
theorem charCompleteness_nonneg {c : Json} {x : ℚ}
    (h : charCompleteness c = some x) : 0 ≤ x := by
  unfold charCompleteness at h
  split at h
  · rw [Option.some_inj] at h
    rw [← h]
    positivity
  · exact absurd h (by simp)

/-- A per-character relationship entry is non-negative. -/
theorem charRelationshipScore_nonneg {c : Json} {x : ℚ}
    (h : charRelationshipScore c = some x) : 0 ≤ x := by
  unfold charRelationshipScore at h
  split at h
  · split at h
    · split_ifs at h <;> rw [Option.some_inj] at h <;> rw [← h] <;> norm_num
    · exact absurd h (by simp)
  · exact absurd h (by simp)

/-- The characters structure rubric is non-negative. -/
theorem score_characters_structure_nonneg (data : Json) :
    0 ≤ score_characters_structure data := by
  have hbody : ∀ cs : List Json, (0:ℚ) ≤
      (if cs.length = 5 then (20:ℚ)
        else if 3 ≤ cs.length then 20 * ((cs.length : ℚ) / 5) else 0) +
      10 * listAvg (cs.filterMap charCompleteness) +
      10 * listAvg (cs.filterMap charRelationshipScore) := by
    intro cs
    have h1 : (0:ℚ) ≤ (if cs.length = 5 then (20:ℚ)
        else if 3 ≤ cs.length then 20 * ((cs.length : ℚ) / 5) else 0) := by
      split_ifs <;> positivity
    have h2 : 0 ≤ listAvg (cs.filterMap charCompleteness) := by
      apply listAvg_nonneg
      intro x hx
      obtain ⟨c, _, hc⟩ := List.mem_filterMap.mp hx
      exact charCompleteness_nonneg hc
    have h3 : 0 ≤ listAvg (cs.filterMap charRelationshipScore) := by
      apply listAvg_nonneg
      intro x hx
      obtain ⟨c, _, hc⟩ := List.mem_filterMap.mp hx
      exact charRelationshipScore_nonneg hc
    linarith
  simp only [score_characters_structure]
  rcases hget : data.get "characters" with _ | v
  · exact hbody []
  · cases v <;> dsimp only <;> try norm_num
    rename_i cs
    exact hbody cs

/-- The violation-count loop adds at most one per chapter. -/
theorem violationLoop_le (l : List Json) :
    ∀ (prev : ℚ) (acc : ℕ), violationLoop prev acc l ≤ acc + l.length := by
  induction l with
  | nil =>
    intro prev acc
    simp [violationLoop]
  | cons c rest ih =>
    intro prev acc
    simp only [violationLoop, List.length_cons]
    cases hp : chapterProgress c with
    | none =>
      dsimp only
      have := ih prev acc
      omega
    | some q =>
      dsimp only
      split_ifs
      · have := ih q (acc + 1)
        omega
      · have := ih q acc
        omega

/-- `count_progress_violations` never exceeds the number of chapters. -/
theorem count_progress_violations_le (chapters : List Json) :
    count_progress_violations chapters ≤ chapters.length := by
  have := violationLoop_le chapters (-1) 0
  simpa [count_progress_violations] using this

/-- The act-structure score fraction is non-negative. -/
theorem score_partial_act_structure_nonneg (arcs : Json) :
    0 ≤ score_partial_act_structure arcs := by
  unfold score_partial_act_structure
  split
  · positivity
  · norm_num

/-- The progress-monotonicity component is non-negative. -/
theorem progress_component_nonneg (chapters : List Json) :
    0 ≤ (if is_progress_monotonic chapters then (10:ℚ)
      else if count_progress_violations chapters ≤ 2 then
        10 * (1 - (count_progress_violations chapters : ℚ) /
          (chapters.length : ℚ))
      else 0) := by
  split_ifs with h1 h2
  · norm_num
  · rcases hc : chapters with _ | ⟨c, rest⟩
    · rw [hc] at h1
      exact absurd rfl h1
    · rw [← hc]
      have hlen : 0 < chapters.length := by rw [hc]; simp
      have hcount := count_progress_violations_le chapters
      have hlenq : (0:ℚ) < (chapters.length : ℚ) := by exact_mod_cast hlen
      have hdiv : (count_progress_violations chapters : ℚ) /
          (chapters.length : ℚ) ≤ 1 := by
        rw [div_le_one hlenq]
        exact_mod_cast hcount
      linarith
  · norm_num

/-- The story-arc structure rubric is non-negative. -/
theorem score_story_arc_structure_nonneg (data : Json) :
    0 ≤ (score_story_arc_structure data).1 := by
  have hact : ∀ arcs : Json, (0:ℚ) ≤
      (if validate_act_structure arcs then (10:ℚ)
        else 10 * score_partial_act_structure arcs) := by
    intro arcs
    split_ifs
    · norm_num
    · have := score_partial_act_structure_nonneg arcs
      linarith
  have hcc : ∀ cs : List Json, (0:ℚ) ≤
      (if cs.length = 12 then (20:ℚ)
        else if 8 ≤ cs.length then 20 * ((cs.length : ℚ) / 12) else 0) := by
    intro cs
    split_ifs <;> positivity
  simp only [score_story_arc_structure]
  rcases hget : data.get "chapters" with _ | v
  · dsimp only
    have h1 := hcc []
    have h2 := progress_component_nonneg []
    have h3 := hact (match data.get "arcs" with
      | some a => a
      | none => Json.obj [])
    simp only [hget] at h3 ⊢
    linarith
  · cases v <;> dsimp only <;> try norm_num
    rename_i cs
    have h1 := hcc cs
    have h2 := progress_component_nonneg cs
    have h3 := hact (match data.get "arcs" with
      | some a => a
      | none => Json.obj [])
    simp only [hget] at h3 ⊢
    linarith

/-- A per-chapter content-length entry is non-negative. -/
theorem chapterLengthScore_nonneg {c : Json} {x : ℚ}
    (h : chapterLengthScore c = some x) : 0 ≤ x := by
  unfold chapterLengthScore at h
  split at h
  · dsimp only at h
    split_ifs at h <;> rw [Option.some_inj] at h <;> rw [← h] <;> norm_num
  · exact absurd h (by simp)

/-- A per-chapter choice-count entry is non-negative. -/
theorem chapterChoiceScore_nonneg {c : Json} {x : ℚ}
    (h : chapterChoiceScore c = some x) : 0 ≤ x := by
  unfold chapterChoiceScore at h
  split at h
  · split at h
    · split_ifs at h <;> rw [Option.some_inj] at h <;> rw [← h] <;> norm_num
    · exact absurd h (by simp)
  · exact absurd h (by simp)

/-- A per-chapter branch-diversity entry is non-negative. -/
theorem chapterDiversity_nonneg (dump : Json → String) {c : Json} {x : ℚ}
    (h : chapterDiversity dump c = some x) : 0 ≤ x := by
  unfold chapterDiversity at h
  split at h
  · split at h
    · dsimp only at h
      split_ifs at h
      rw [Option.some_inj] at h
      rw [← h]
      positivity
    · exact absurd h (by simp)
  · exact absurd h (by simp)

/-- The chapters structure rubric is non-negative. -/
theorem score_chapters_structure_nonneg (dump : Json → String) (data : Json) :
    0 ≤ score_chapters_structure dump data := by
  simp only [score_chapters_structure]
  have hbody : ∀ cs : List Json, (0:ℚ) ≤
      20 * listAvg (cs.filterMap chapterLengthScore) +
      10 * listAvg (cs.filterMap chapterChoiceScore) +
      10 * calculate_branch_diversity dump cs := by
    intro cs
    have h1 : 0 ≤ listAvg (cs.filterMap chapterLengthScore) := by
      apply listAvg_nonneg
      intro x hx
      obtain ⟨c, _, hc⟩ := List.mem_filterMap.mp hx
      exact chapterLengthScore_nonneg hc
    have h2 : 0 ≤ listAvg (cs.filterMap chapterChoiceScore) := by
      apply listAvg_nonneg
      intro x hx
      obtain ⟨c, _, hc⟩ := List.mem_filterMap.mp hx
      exact chapterChoiceScore_nonneg hc
    have h3 : 0 ≤ calculate_branch_diversity dump cs := by
      apply listAvg_nonneg
      intro x hx
      obtain ⟨c, _, hc⟩ := List.mem_filterMap.mp hx
      exact chapterDiversity_nonneg dump hc
    linarith
  rcases hget : data.get "chapters" with _ | v
  · norm_num
  · cases v <;> dsimp only <;> try norm_num
    rename_i cs
    split_ifs
    · norm_num
    · exact hbody cs

/-- C2 helper: the structure score lies in [0, 40]. -/
theorem structure_score_bounds (data : Json) (task_type : String) :
    0 ≤ calculate_structure_score data task_type ∧
      calculate_structure_score data task_type ≤ 40 := by
  unfold calculate_structure_score
  split_ifs
  · exact ⟨le_min (score_blueprint_structure_nonneg data) (by norm_num),
      min_le_right _ _⟩
  · exact ⟨le_min (score_characters_structure_nonneg data) (by norm_num),
      min_le_right _ _⟩
  · exact ⟨le_min (score_story_arc_structure_nonneg data) (by norm_num),
      min_le_right _ _⟩
  · exact ⟨le_min (score_chapters_structure_nonneg dumpsSorted data)
      (by norm_num), min_le_right _ _⟩
  · norm_num

/-- The keyword-relevance component is non-negative. -/
theorem relevance_nonneg (data context : Json) (task_type : String) :
    0 ≤ calculate_relevance_heuristic data context task_type := by
  have hbranch : ∀ (n : ℕ) (k : ℚ), 0 ≤ k →
      (0:ℚ) ≤ (if 0 < n then min 15 ((n:ℚ) * k) else 0) := by
    intro n k hk
    split_ifs
    · exact le_min (by norm_num) (by positivity)
    · norm_num
  unfold calculate_relevance_heuristic
  split_ifs <;> first
    | exact hbranch _ _ (by norm_num)
    | exact le_min (by norm_num) (by positivity)
    | norm_num

/-- The fluency component is non-negative. -/
theorem fluencyOfText_nonneg (text : String) (task_type : String) :
    0 ≤ fluencyOfText text task_type := by
  simp only [fluencyOfText]
  split_ifs <;> norm_num

/-- The fluency component is non-negative. -/
theorem fluency_nonneg (data : Json) (task_type : String) :
    0 ≤ calculate_fluency data task_type :=
  fluencyOfText_nonneg _ _

/-- The originality component is non-negative. -/
theorem originality_nonneg (data : Json) (history : List Json) :
    0 ≤ calculate_originality data history := by
  simp only [calculate_originality]
  split_ifs <;> norm_num

/-- C2 helper: the content score lies in [0, 30]. -/
theorem content_score_bounds (data context : Json) (task_type : String)
    (history : List Json) (use_embeddings : Bool) :
    0 ≤ calculate_content_score data context task_type history
        use_embeddings ∧
      calculate_content_score data context task_type history
        use_embeddings ≤ 30 := by
  simp only [calculate_content_score]
  refine ⟨le_min ?_ (by norm_num), min_le_right _ _⟩
  have hr : 0 ≤ (if use_embeddings then
      calculate_relevance_with_embeddings data context task_type
    else calculate_relevance_heuristic data context task_type) := by
    split_ifs
    · unfold calculate_relevance_with_embeddings
      exact relevance_nonneg data context task_type
    · exact relevance_nonneg data context task_type
  have hf := fluency_nonneg data task_type
  have ho : 0 ≤ (if ¬ history.isEmpty then calculate_originality data history
      else (5:ℚ)) := by
    split_ifs <;> first
      | exact originality_nonneg data history
      | norm_num
  linarith

/-- C2 helper: the narrative score (default configuration) lies in
[0, 30]: the fallback is 15, insufficient content yields 5, and the
weighted judge aggregation is clamped into the range. -/
theorem narrative_score_bounds (data context : Json) (task_type : String)
    (parsed : Option Json) :
    0 ≤ calculate_narrative_score data context task_type parsed ∧
      calculate_narrative_score data context task_type parsed ≤ 30 := by
  unfold calculate_narrative_score narrative_evaluate
  have henabled : ¬ (¬ defaultNarrativeConfig.enabled = true) := by
    simp [defaultNarrativeConfig]
  rw [if_neg henabled]
  by_cases h2 : ((extract_content data task_type).isEmpty = true ∨
      (extract_content data task_type).length < 50)
  · rw [if_pos h2]
    norm_num
  · rw [if_neg h2]
    cases parsed with
    | none =>
      norm_num [defaultNarrativeConfig]
    | some p =>
      dsimp only
      simp only [defaultNarrativeConfig, List.map_cons, List.map_nil,
        List.sum_cons, List.sum_nil]
      refine ⟨le_min ?_ (by norm_num), min_le_right _ _⟩
      have hterm : ∀ (w x : ℚ), 0 ≤ w →
          0 ≤ (max 0 (min 5 x)) * w * 6 := by
        intro w x hw
        exact mul_nonneg (mul_nonneg (le_max_left _ _) hw) (by norm_num)
      have t1 := hterm (30/100) (match p.get "narrative_flow" with
        | some (Json.num q) => q
        | some _ => 5/2
        | none => 5/2) (by norm_num)
      have t2 := hterm (25/100) (match p.get "emotional_impact" with
        | some (Json.num q) => q
        | some _ => 5/2
        | none => 5/2) (by norm_num)
      have t3 := hterm (25/100) (match p.get "creative_originality" with
        | some (Json.num q) => q
        | some _ => 5/2
        | none => 5/2) (by norm_num)
      have t4 := hterm (20/100) (match p.get "internal_consistency" with
        | some (Json.num q) => q
        | some _ => 5/2
        | none => 5/2) (by norm_num)
      linarith [t1, t2, t3, t4]

/-- A successful association-list lookup locates a member. -/
theorem assocLookup_mem {α : Type} {l : List (String × α)} {key : String}
    {v : α} (h : assocLookup l key = some v) : (key, v) ∈ l := by
  induction l with
  | nil => simp [assocLookup] at h
  | cons p rest ih =>
    obtain ⟨a, b⟩ := p
    simp only [assocLookup] at h
    split_ifs at h with hk
    · rw [Option.some_inj] at h
      subst hk
      subst h
      exact List.mem_cons_self _ _
    · exact List.mem_cons_of_mem _ (ih h)

/-- C2 helper: under a policy whose multipliers all lie in [0, 1], the
policy engine keeps a base score from [0, 100] inside [0, 100]. -/
theorem apply_multiplier_bounds (policy : QualityPolicy) (base_score : ℚ)
    (model_info : ModelInfo) (hp : PolicyBounded policy)
    (h0 : 0 ≤ base_score) (h1 : base_score ≤ 100) :
    0 ≤ apply_model_quality_multiplier policy base_score model_info ∧
      apply_model_quality_multiplier policy base_score model_info ≤ 100 := by
  obtain ⟨hmm, hrm, hpen0, hpen1⟩ := hp
  unfold apply_model_quality_multiplier
  by_cases hc : (model_info.isEmpty = true ∨
      assocLookup model_info "mode" = some "unknown")
  · rw [if_pos hc]
    refine ⟨mul_nonneg h0 hpen0, ?_⟩
    have := mul_le_of_le_one_right h0 hpen1
    linarith
  · rw [if_neg hc]
    dsimp only
    split_ifs with hbl hq
    · norm_num
    · norm_num
    · have hA : 0 ≤ (assocLookup policy.mode_multipliers
          ((assocLookup model_info "mode").getD "unknown")).getD 1 ∧
          (assocLookup policy.mode_multipliers
            ((assocLookup model_info "mode").getD "unknown")).getD 1 ≤ 1 := by
        cases hlk : assocLookup policy.mode_multipliers
            ((assocLookup model_info "mode").getD "unknown") with
        | none => simp
        | some x =>
          have := hmm _ (assocLookup_mem hlk)
          simpa using this
      cases hf : policy.recommended_models.find?
          (fun r => strContains
            ((assocLookup model_info "name").getD "unknown") r.name) with
      | none =>
        dsimp only
        refine ⟨mul_nonneg h0 (by simpa using hA.1), ?_⟩
        have hle : (assocLookup policy.mode_multipliers
            ((assocLookup model_info "mode").getD "unknown")).getD 1 * 1 ≤ 1 := by
          simpa using hA.2
        have := mul_le_of_le_one_right h0 hle
        exact le_trans this h1
      | some r =>
        dsimp only
        have hB := hrm r (List.mem_of_find?_eq_some hf)
        refine ⟨mul_nonneg h0 (mul_nonneg hA.1 hB.1), ?_⟩
        have hle : (assocLookup policy.mode_multipliers
            ((assocLookup model_info "mode").getD "unknown")).getD 1 *
            r.bonus.getD 1 ≤ 1 := by
          nlinarith [hA.1, hA.2, hB.1, hB.2]
        have := mul_le_of_le_one_right h0 hle
        exact le_trans this h1

/-- C2 counterexample.  The claim bounds the final adjusted score by 100
for *every* model-policy configuration; with a configured mode
multiplier of 10 (and a minimum-quality threshold of 0) a plain
blueprint response scores `(730/21) * 10 > 100`, because
`apply_model_quality_multiplier` never clamps the product. -/
theorem score_response_over_100_counterexample :
    100 < score_response ⟨some 0, [("local", 10)], [], [], none⟩
      ⟨"blueprint", some (Json.obj [("title", Json.str "T")]), 5,
        [("mode", "local"), ("name", "m")]⟩
      (Json.obj [("user_input", Json.str "x")]) [] none := by
  have htech : calculate_technical_score
      (some (Json.obj [("title", Json.str "T")])) 5 "blueprint"
      (get_required_output_fields "blueprint") = 150/7 := by
    simp [calculate_technical_score, calculate_schema_score,
      calculate_time_score, get_required_output_fields, Json.hasField,
      Json.get, lookupField]
    norm_num
  have hstruct : calculate_structure_score
      (Json.obj [("title", Json.str "T")]) "blueprint" = 20/7 := by
    simp [calculate_structure_score, score_blueprint_structure,
      Json.hasField, Json.get, lookupField, Json.getStrD]
    norm_num
  have hrel : calculate_relevance_heuristic
      (Json.obj [("title", Json.str "T")])
      (Json.obj [("user_input", Json.str "x")]) "blueprint" = 0 := rfl
  have hflu : calculate_fluency (Json.obj [("title", Json.str "T")])
      "blueprint" = 0 := rfl
  have hcontent : calculate_content_score
      (Json.obj [("title", Json.str "T")])
      (Json.obj [("user_input", Json.str "x")]) "blueprint" [] false = 5 := by
    simp only [calculate_content_score, hrel, hflu]
    norm_num
  have hnarr : calculate_narrative_score
      (Json.obj [("title", Json.str "T")])
      (Json.obj [("user_input", Json.str "x")]) "blueprint" none = 15 := rfl
  simp only [score_response, htech, hstruct, hcontent, hnarr]
  have htruthy : ¬ ¬ (Json.obj [("title", Json.str "T")]).truthy = true := by
    decide
  rw [if_neg htruthy]
  have hcond : ¬ (([("mode", "local"), ("name", "m")] :
      ModelInfo).isEmpty = true ∨
      assocLookup [("mode", "local"), ("name", "m")] "mode" =
        some "unknown") := by
    decide
  rw [apply_model_quality_multiplier, if_neg hcond]
  norm_num [assocLookup, strContains, containsSubstring]

/-- C2 amended.  Each scorer keeps its sub-score inside its declared
budget (technical [0, 30], structure [0, 40], content [0, 30], narrative
[0, 30] under the default judge configuration), and for any policy
whose mode multipliers, recommended-model bonuses and no-model-info
penalty lie in [0, 1] (as in the shipped all-1.0 default policy), the
final adjusted total lies in [0, 100].  With a configured multiplier
above 1 the final total can exceed 100. -/
theorem score_pipeline_bounds (policy : QualityPolicy)
    (response : SynapseResponse) (context : Json) (history : List Json)
    (narrative_reply : Option Json) (hp : PolicyBounded policy) :
    (∀ (parsed : Option Json) (gt : ℚ) (tt : String) (rf : List String),
      0 ≤ calculate_technical_score parsed gt tt rf ∧
        calculate_technical_score parsed gt tt rf ≤ 30) ∧
    (∀ (d : Json) (tt : String),
      0 ≤ calculate_structure_score d tt ∧
        calculate_structure_score d tt ≤ 40) ∧
    (∀ (d c : Json) (tt : String) (h : List Json) (u : Bool),
      0 ≤ calculate_content_score d c tt h u ∧
        calculate_content_score d c tt h u ≤ 30) ∧
    (∀ (d c : Json) (tt : String) (r : Option Json),
      0 ≤ calculate_narrative_score d c tt r ∧
        calculate_narrative_score d c tt r ≤ 30) ∧
    (0 ≤ score_response policy response context history narrative_reply ∧
      score_response policy response context history narrative_reply
        ≤ 100) := by
  refine ⟨fun parsed gt tt rf => technical_score_bounds parsed gt tt rf,
    fun d tt => structure_score_bounds d tt,
    fun d c tt h u => content_score_bounds d c tt h u,
    fun d c tt r => narrative_score_bounds d c tt r, ?_⟩
  obtain ⟨tt, od, gt, mi⟩ := response
  cases od with
  | none => simp [score_response]
  | some data =>
    simp only [score_response]
    by_cases htr : ¬ data.truthy = true
    · rw [if_pos htr]
      norm_num
    · rw [if_neg htr]
      have ht := technical_score_bounds (some data) gt tt
        (get_required_output_fields tt)
      have hs := structure_score_bounds data tt
      have hc := content_score_bounds data context tt history false
      have hn := narrative_score_bounds data context tt narrative_reply
      have hbase0 : 0 ≤
          calculate_technical_score (some data) gt tt
              (get_required_output_fields tt) * (20/30) +
            calculate_structure_score data tt * (30/40) +
            calculate_content_score data context tt history false * (20/30) +
            calculate_narrative_score data context tt narrative_reply := by
        have := ht.1
        have := hs.1
        have := hc.1
        have := hn.1
        linarith
      have hbase1 :
          calculate_technical_score (some data) gt tt
              (get_required_output_fields tt) * (20/30) +
            calculate_structure_score data tt * (30/40) +
            calculate_content_score data context tt history false * (20/30) +
            calculate_narrative_score data context tt narrative_reply
          ≤ 100 := by
        have := ht.2
        have := hs.2
        have := hc.2
        have := hn.2
        linarith
      exact apply_multiplier_bounds policy _ mi hp hbase0 hbase1

/-- Witness for C2 with the built-in default (all-parity) policy shape. -/
theorem score_pipeline_bounds_witness :
    PolicyBounded ⟨none, [], [], [], none⟩ ∧
    (0 ≤ score_response ⟨none, [], [], [], none⟩
        ⟨"blueprint", some (Json.obj [("title", Json.str "T")]), 5, []⟩
        (Json.obj []) [] none ∧
      score_response ⟨none, [], [], [], none⟩
        ⟨"blueprint", some (Json.obj [("title", Json.str "T")]), 5, []⟩
        (Json.obj []) [] none ≤ 100) := by
  have hpb : PolicyBounded ⟨none, [], [], [], none⟩ := by
    refine ⟨by simp, by simp, ?_, ?_⟩ <;> norm_num [Option.getD]
  exact ⟨hpb, (score_pipeline_bounds ⟨none, [], [], [], none⟩
    ⟨"blueprint", some (Json.obj [("title", Json.str "T")]), 5, []⟩
    (Json.obj []) [] none hpb).2.2.2.2⟩

end StoryFi
